import Mathlib

/-!
Verification development for the BLAS multi-surface generator
(`gen_blas.py`) of libgpuarray.

The generator stamps out, from a declarative table of three operation
descriptors (gemv, gemm, ger), five coupled artifacts.  Two kinds of
facts are modelled here:

* the runtime behaviour of the generated simplified-surface functions
  `GpuArray_r<op>` (template `ARRAYBLAS_TMPL`) and of the generated
  high-level Cython bindings (template `BLAS_PYX_TMPL`), embedded as
  executable Lean functions over a model of `GpuArray` values, with the
  external runtime (buffer copies, context properties, backend kernels,
  allocators) supplied as an oracle `Env`;
* the emitter itself: the argument model (`Argument` subclasses), the
  operation descriptors (`make_ops`), and the naming / argument-list
  rendering used across the five artifacts.

Machine scalars `double` are modelled as `Rat` (the pipeline only ever
compares them with zero and forwards them), sizes as `Nat`, strides as
`Int`.
-/

set_option maxHeartbeats 1000000

namespace GB

/-- Element type tags (`GA_FLOAT`, `GA_DOUBLE`, anything else). -/
inductive Typecode
  | gaFloat
  | gaDouble
  | gaOther (n : Nat)
deriving DecidableEq, Repr

/-- `gpuarray_get_elsize` for the two supported element types (only ever
evaluated after the pipeline's type check has passed). -/
def Typecode.elsize : Typecode → Nat
  | Typecode.gaFloat => 4
  | Typecode.gaDouble => 8
  | Typecode.gaOther _ => 1

/-- `cb_transpose`. -/
inductive CbTrans
  | noTrans
  | trans
  | conjTrans
deriving DecidableEq, Repr

/-- `cb_order` (`cb_c` = `cb_row`, `cb_fortran` = `cb_column`). -/
inductive CbOrder
  | cbC
  | cbFortran
deriving DecidableEq, Repr

/-- Order request passed to `GpuArray_copy`. -/
inductive CopyOrd
  | anyOrder
  | fOrder
deriving DecidableEq, Repr

/-- Error codes returned by the generated pipeline; `otherError` stands
for any further code coming out of the external runtime. -/
inductive GAErr
  | noError
  | valueError
  | invalidError
  | unalignedError
  | copyError
  | otherError (n : Nat)
deriving DecidableEq, Repr

/-- Which allocator the high-level binding invoked. -/
inductive AllocKind
  | empty
  | zeros
deriving DecidableEq, Repr

/-- Model of a `GpuArray` descriptor: element type, buffer identity and
offset, shape, strides, and the layout flags the pipeline inspects
(`GA_ALIGNED`, `GA_F_CONTIGUOUS`, `GA_C_CONTIGUOUS`,
`GpuArray_ISONESEGMENT`). -/
structure GpuArray where
  typecode : Typecode
  data : Nat
  offset : Nat
  dims : List Nat
  strides : List Int
  aligned : Bool
  fContig : Bool
  cContig : Bool
  oneSegment : Bool
deriving DecidableEq, Repr

/-- `a->nd`. -/
def GpuArray.nd (a : GpuArray) : Nat := a.dims.length

/-- `a->dimensions[i]`. -/
def GpuArray.dim (a : GpuArray) (i : Nat) : Nat := a.dims.getD i 0

/-- `a->strides[0]`. -/
def GpuArray.stride0 (a : GpuArray) : Int := a.strides.getD 0 0

/-- The argument tuple handed to a `gemv` backend entry
(`blas->sgemv` / `blas->dgemv`); `fl` records which of the two
per-type entries was selected. -/
structure GemvCall where
  fl : Bool
  o : CbOrder
  transA : CbTrans
  m : Nat
  n : Nat
  alpha : Rat
  aData : Nat
  aOff : Nat
  lda : Nat
  xData : Nat
  xOff : Nat
  incX : Int
  beta : Rat
  yData : Nat
  yOff : Nat
  incY : Int
deriving DecidableEq, Repr

/-- The argument tuple handed to a `gemm` backend entry. -/
structure GemmCall where
  fl : Bool
  o : CbOrder
  transA : CbTrans
  transB : CbTrans
  m : Nat
  n : Nat
  k : Nat
  alpha : Rat
  aData : Nat
  aOff : Nat
  lda : Nat
  bData : Nat
  bOff : Nat
  ldb : Nat
  beta : Rat
  cData : Nat
  cOff : Nat
  ldc : Nat
deriving DecidableEq, Repr

/-- The argument tuple handed to a `ger` backend entry. -/
structure GerCall where
  fl : Bool
  o : CbOrder
  m : Nat
  n : Nat
  alpha : Rat
  xData : Nat
  xOff : Nat
  incX : Int
  yData : Nat
  yOff : Nat
  incY : Int
  aData : Nat
  aOff : Nat
  lda : Nat
deriving DecidableEq, Repr

/-- Oracle for everything outside the generated code: `GpuArray_copy`,
the two `property` lookups, `blas->setup`, the per-operation backend
entries, the high-level allocators `pygpu_empty` / `pygpu_zeros` and
`pygpu_copy`. -/
structure Env where
  copyFn : GpuArray → CopyOrd → Except GAErr GpuArray
  ctxErr : GAErr
  blasOpsErr : GAErr
  setupErr : GAErr
  gemvErr : GemvCall → GAErr
  gemmErr : GemmCall → GAErr
  gerErr : GerCall → GAErr
  alloc : AllocKind → List Nat → Typecode → GpuArray
  pycopy : GpuArray → GpuArray

/-- Observable outcome of one simplified-surface call: the returned
error code, the backend invocation (if one was reached) with its full
argument tuple, and the names of the fallback copies allocated and of
those released by the `cleanup` block. -/
structure Res (C : Type) where
  err : GAErr
  call : Option C
  allocated : List String
  freed : List String
deriving DecidableEq, Repr

/-- `setup_order_gemv` snippet: storage-order detection and leading
dimension for the sole matrix of `gemv`, run on the possibly-copied
`Ap`. -/
def setup_order_gemv (Ap : GpuArray) : Except GAErr (CbOrder × Nat) :=
  if Ap.fContig then Except.ok (CbOrder.cbFortran, Ap.dim 0)
  else if Ap.cContig then Except.ok (CbOrder.cbC, Ap.dim 1)
  else Except.error GAErr.valueError

/-- `setup_order_ger` snippet (textually identical to the `gemv` one,
run on the output matrix `Ap`). -/
def setup_order_ger (Ap : GpuArray) : Except GAErr (CbOrder × Nat) :=
  if Ap.fContig then Except.ok (CbOrder.cbFortran, Ap.dim 0)
  else if Ap.cContig then Except.ok (CbOrder.cbC, Ap.dim 1)
  else Except.error GAErr.valueError

/-- The transpose-flag inversion of `setup_order_gemm`:
`if (t == cb_no_trans) t = cb_trans; else t = cb_no_trans;`. -/
def flipTrans : CbTrans → CbTrans
  | CbTrans.noTrans => CbTrans.trans
  | CbTrans.trans => CbTrans.noTrans
  | CbTrans.conjTrans => CbTrans.noTrans

/-- One input-matrix block of `setup_order_gemm`: given the order `o`
fixed by `C`, derive the matrix's leading dimension and correct its
transpose flag when its own contiguous storage disagrees with `o`;
neither-contiguous is a `GA_VALUE_ERROR`. -/
def gemmOrderArg (o : CbOrder) (Mp : GpuArray) (t : CbTrans) :
    Except GAErr (CbTrans × Nat) :=
  if Mp.fContig then
    Except.ok (if o = CbOrder.cbC then flipTrans t else t, Mp.dim 0)
  else if Mp.cContig then
    Except.ok (if o = CbOrder.cbFortran then flipTrans t else t, Mp.dim 1)
  else Except.error GAErr.valueError

/-- `setup_order_gemm` snippet: the output matrix `Cp` fixes the order
(F-contiguous wins, else C-contiguous, else `GA_VALUE_ERROR`), then each
of `Ap`, `Bp` gets its transpose flag and leading dimension corrected
against that order.  Returns `(o, transA, transB, lda, ldb, ldc)`. -/
def setup_order_gemm (transA transB : CbTrans) (Ap Bp Cp : GpuArray) :
    Except GAErr (CbOrder × CbTrans × CbTrans × Nat × Nat × Nat) :=
  match (if Cp.fContig then Except.ok (CbOrder.cbFortran, Cp.dim 0)
         else if Cp.cContig then Except.ok (CbOrder.cbC, Cp.dim 1)
         else Except.error GAErr.valueError :
           Except GAErr (CbOrder × Nat)) with
  | Except.error e => Except.error e
  | Except.ok (o, ldc) =>
    match gemmOrderArg o Ap transA with
    | Except.error e => Except.error e
    | Except.ok (tA, lda) =>
      match gemmOrderArg o Bp transB with
      | Except.error e => Except.error e
      | Except.ok (tB, ldb) => Except.ok (o, tA, tB, lda, ldb, ldc)

/-- Builds the `sgemv`/`dgemv` argument tuple exactly as the generated
call site does (`format_as_callarg` of each descriptor argument, with
`m`, `n` the locals set by `check_dims_gemv` from the original `A`). -/
def mkGemvCall (fl : Bool) (o : CbOrder) (transA : CbTrans) (m n : Nat)
    (alpha : Rat) (Ap : GpuArray) (lda : Nat) (Xp : GpuArray) (beta : Rat)
    (Yp : GpuArray) (elsize : Nat) : GemvCall :=
  { fl := fl, o := o, transA := transA, m := m, n := n, alpha := alpha,
    aData := Ap.data, aOff := Ap.offset / elsize, lda := lda,
    xData := Xp.data, xOff := Xp.offset / elsize,
    incX := Int.tdiv Xp.stride0 (Int.ofNat elsize), beta := beta,
    yData := Yp.data, yOff := Yp.offset / elsize,
    incY := Int.tdiv Yp.stride0 (Int.ofNat elsize) }

/-- Tail of `GpuArray_rgemv` from the `Y` stride check on: output-vector
rejection, `setup_order_gemv` on `Ap`, the two `property` lookups,
`blas->setup`, the per-type backend branch, and the `cleanup` block
(which releases exactly the copies whose pointers were redirected). -/
def rgemvFinish (env : Env) (transA : CbTrans) (alpha : Rat) (A : GpuArray)
    (beta : Rat) (Y : GpuArray) (Ap Xp : GpuArray) (elsize : Nat)
    (allocd : List String) : Res GemvCall :=
  if Y.stride0 < 0 then ⟨GAErr.valueError, none, allocd, allocd⟩
  else
    match setup_order_gemv Ap with
    | Except.error e => ⟨e, none, allocd, allocd⟩
    | Except.ok (o, lda) =>
      if env.ctxErr ≠ GAErr.noError then ⟨env.ctxErr, none, allocd, allocd⟩
      else if env.blasOpsErr ≠ GAErr.noError then
        ⟨env.blasOpsErr, none, allocd, allocd⟩
      else if env.setupErr ≠ GAErr.noError then
        ⟨env.setupErr, none, allocd, allocd⟩
      else if Ap.typecode = Typecode.gaFloat then
        ⟨env.gemvErr (mkGemvCall true o transA (A.dim 0) (A.dim 1) alpha Ap lda Xp beta Y elsize),
         some (mkGemvCall true o transA (A.dim 0) (A.dim 1) alpha Ap lda Xp beta Y elsize),
         allocd, allocd⟩
      else
        ⟨env.gemvErr (mkGemvCall false o transA (A.dim 0) (A.dim 1) alpha Ap lda Xp beta Y elsize),
         some (mkGemvCall false o transA (A.dim 0) (A.dim 1) alpha Ap lda Xp beta Y elsize),
         allocd, allocd⟩

/-- Fallback step for the input vector `X` of `GpuArray_rgemv`
(negative stride: reject with `GA_COPY_ERROR` under `nocopy`, else copy
with `GA_ANY_ORDER`), then the tail. -/
def rgemvFromX (env : Env) (transA : CbTrans) (alpha : Rat) (A X : GpuArray)
    (beta : Rat) (Y : GpuArray) (nocopy : Bool) (Ap : GpuArray)
    (elsize : Nat) (allocd : List String) : Res GemvCall :=
  if X.stride0 < 0 then
    if nocopy then ⟨GAErr.copyError, none, allocd, []⟩
    else
      match env.copyFn X CopyOrd.anyOrder with
      | Except.error e => ⟨e, none, allocd, allocd⟩
      | Except.ok X2 =>
        rgemvFinish env transA alpha A beta Y Ap X2 elsize (allocd ++ ["X"])
  else rgemvFinish env transA alpha A beta Y Ap X elsize allocd

/-- The generated simplified-surface function `GpuArray_rgemv`
(instance of `ARRAYBLAS_TMPL` for the `gemv` descriptor): type check on
the first array, rank/type-agreement check, alignment check,
`check_dims_gemv` (which returns directly, before any copy exists),
then the contiguity fallback for `A` (matrix input), `X` (vector
input), `Y` (vector output), and the tail. -/
def GpuArray_rgemv (env : Env) (transA : CbTrans) (alpha : Rat)
    (A X : GpuArray) (beta : Rat) (Y : GpuArray) (nocopy : Bool) :
    Res GemvCall :=
  if A.typecode ≠ Typecode.gaFloat ∧ A.typecode ≠ Typecode.gaDouble then
    ⟨GAErr.invalidError, none, [], []⟩
  else if A.nd ≠ 2 ∨ X.nd ≠ 1 ∨ Y.nd ≠ 1 ∨
      A.typecode ≠ A.typecode ∨ X.typecode ≠ A.typecode ∨
      Y.typecode ≠ A.typecode then
    ⟨GAErr.valueError, none, [], []⟩
  else if ¬A.aligned ∨ ¬X.aligned ∨ ¬Y.aligned then
    ⟨GAErr.unalignedError, none, [], []⟩
  else if (if transA = CbTrans.noTrans then
             Y.dim 0 ≠ A.dim 0 ∨ X.dim 0 ≠ A.dim 1
           else Y.dim 0 ≠ A.dim 1 ∨ X.dim 0 ≠ A.dim 0) then
    ⟨GAErr.valueError, none, [], []⟩
  else if ¬A.oneSegment then
    if nocopy then ⟨GAErr.copyError, none, [], []⟩
    else
      match env.copyFn A CopyOrd.fOrder with
      | Except.error e => ⟨e, none, [], []⟩
      | Except.ok A2 =>
        rgemvFromX env transA alpha A X beta Y nocopy A2
          A.typecode.elsize ["A"]
  else
    rgemvFromX env transA alpha A X beta Y nocopy A A.typecode.elsize []

/-- Builds the `sgemm`/`dgemm` argument tuple exactly as the generated
call site does; `m`, `n`, `k` are the locals set by `check_dims_gemm`
from the original arrays and the caller's transpose flags, while
`transA`, `transB` here are the flags after `setup_order_gemm`'s
correction. -/
def mkGemmCall (fl : Bool) (o : CbOrder) (transA transB : CbTrans)
    (m n k : Nat) (alpha : Rat) (Ap : GpuArray) (lda : Nat) (Bp : GpuArray)
    (ldb : Nat) (beta : Rat) (Cp : GpuArray) (ldc : Nat) (elsize : Nat) :
    GemmCall :=
  { fl := fl, o := o, transA := transA, transB := transB, m := m, n := n,
    k := k, alpha := alpha,
    aData := Ap.data, aOff := Ap.offset / elsize, lda := lda,
    bData := Bp.data, bOff := Bp.offset / elsize, ldb := ldb, beta := beta,
    cData := Cp.data, cOff := Cp.offset / elsize, ldc := ldc }

/-- Tail of `GpuArray_rgemm` from the output-matrix contiguity check on:
`C` non-one-segment is rejected (`GA_VALUE_ERROR`, never copied), then
`setup_order_gemm` on `(Ap, Bp, C)`, the `property` lookups,
`blas->setup`, the per-type backend branch, and `cleanup`. -/
def rgemmFinish (env : Env) (transA transB : CbTrans) (alpha : Rat)
    (A B : GpuArray) (beta : Rat) (C : GpuArray) (Ap Bp : GpuArray)
    (elsize : Nat) (allocd : List String) : Res GemmCall :=
  if ¬C.oneSegment then ⟨GAErr.valueError, none, allocd, allocd⟩
  else
    match setup_order_gemm transA transB Ap Bp C with
    | Except.error e => ⟨e, none, allocd, allocd⟩
    | Except.ok (o, tA, tB, lda, ldb, ldc) =>
      if env.ctxErr ≠ GAErr.noError then ⟨env.ctxErr, none, allocd, allocd⟩
      else if env.blasOpsErr ≠ GAErr.noError then
        ⟨env.blasOpsErr, none, allocd, allocd⟩
      else if env.setupErr ≠ GAErr.noError then
        ⟨env.setupErr, none, allocd, allocd⟩
      else if Ap.typecode = Typecode.gaFloat then
        ⟨env.gemmErr (mkGemmCall true o tA tB
            (if transA = CbTrans.noTrans then A.dim 0 else A.dim 1)
            (if transB = CbTrans.noTrans then B.dim 1 else B.dim 0)
            (if transA = CbTrans.noTrans then A.dim 1 else A.dim 0)
            alpha Ap lda Bp ldb beta C ldc elsize),
         some (mkGemmCall true o tA tB
            (if transA = CbTrans.noTrans then A.dim 0 else A.dim 1)
            (if transB = CbTrans.noTrans then B.dim 1 else B.dim 0)
            (if transA = CbTrans.noTrans then A.dim 1 else A.dim 0)
            alpha Ap lda Bp ldb beta C ldc elsize),
         allocd, allocd⟩
      else
        ⟨env.gemmErr (mkGemmCall false o tA tB
            (if transA = CbTrans.noTrans then A.dim 0 else A.dim 1)
            (if transB = CbTrans.noTrans then B.dim 1 else B.dim 0)
            (if transA = CbTrans.noTrans then A.dim 1 else A.dim 0)
            alpha Ap lda Bp ldb beta C ldc elsize),
         some (mkGemmCall false o tA tB
            (if transA = CbTrans.noTrans then A.dim 0 else A.dim 1)
            (if transB = CbTrans.noTrans then B.dim 1 else B.dim 0)
            (if transA = CbTrans.noTrans then A.dim 1 else A.dim 0)
            alpha Ap lda Bp ldb beta C ldc elsize),
         allocd, allocd⟩

/-- Fallback step for the input matrix `B` of `GpuArray_rgemm`, then
the tail. -/
def rgemmFromB (env : Env) (transA transB : CbTrans) (alpha : Rat)
    (A B : GpuArray) (beta : Rat) (C : GpuArray) (nocopy : Bool)
    (Ap : GpuArray) (elsize : Nat) (allocd : List String) : Res GemmCall :=
  if ¬B.oneSegment then
    if nocopy then ⟨GAErr.copyError, none, allocd, []⟩
    else
      match env.copyFn B CopyOrd.fOrder with
      | Except.error e => ⟨e, none, allocd, allocd⟩
      | Except.ok B2 =>
        rgemmFinish env transA transB alpha A B beta C Ap B2 elsize
          (allocd ++ ["B"])
  else rgemmFinish env transA transB alpha A B beta C Ap B elsize allocd

/-- The generated simplified-surface function `GpuArray_rgemm`
(instance of `ARRAYBLAS_TMPL` for the `gemm` descriptor): type check on
the first array, rank/type-agreement check, alignment check,
`check_dims_gemm` (inner dimensions of `A` and `B` agree under the
requested transposes, `C` matches the outer dimensions; returns
directly), then the contiguity fallback for `A`, `B` (matrix inputs)
and `C` (matrix output, never copied), and the tail. -/
def GpuArray_rgemm (env : Env) (transA transB : CbTrans) (alpha : Rat)
    (A B : GpuArray) (beta : Rat) (C : GpuArray) (nocopy : Bool) :
    Res GemmCall :=
  if A.typecode ≠ Typecode.gaFloat ∧ A.typecode ≠ Typecode.gaDouble then
    ⟨GAErr.invalidError, none, [], []⟩
  else if A.nd ≠ 2 ∨ B.nd ≠ 2 ∨ C.nd ≠ 2 ∨
      A.typecode ≠ A.typecode ∨ B.typecode ≠ A.typecode ∨
      C.typecode ≠ A.typecode then
    ⟨GAErr.valueError, none, [], []⟩
  else if ¬A.aligned ∨ ¬B.aligned ∨ ¬C.aligned then
    ⟨GAErr.unalignedError, none, [], []⟩
  else if (if transB = CbTrans.noTrans then
             B.dim 0 ≠ (if transA = CbTrans.noTrans then A.dim 1 else A.dim 0)
           else
             B.dim 1 ≠ (if transA = CbTrans.noTrans then A.dim 1 else A.dim 0)) then
    ⟨GAErr.valueError, none, [], []⟩
  else if C.dim 0 ≠ (if transA = CbTrans.noTrans then A.dim 0 else A.dim 1) ∨
      C.dim 1 ≠ (if transB = CbTrans.noTrans then B.dim 1 else B.dim 0) then
    ⟨GAErr.valueError, none, [], []⟩
  else if ¬A.oneSegment then
    if nocopy then ⟨GAErr.copyError, none, [], []⟩
    else
      match env.copyFn A CopyOrd.fOrder with
      | Except.error e => ⟨e, none, [], []⟩
      | Except.ok A2 =>
        rgemmFromB env transA transB alpha A B beta C nocopy A2
          A.typecode.elsize ["A"]
  else
    rgemmFromB env transA transB alpha A B beta C nocopy A
      A.typecode.elsize []

/-- Builds the `sger`/`dger` argument tuple exactly as the generated
call site does (`m`, `n` are the lengths of the original `X`, `Y`). -/
def mkGerCall (fl : Bool) (o : CbOrder) (m n : Nat) (alpha : Rat)
    (Xp Yp Ap : GpuArray) (lda : Nat) (elsize : Nat) : GerCall :=
  { fl := fl, o := o, m := m, n := n, alpha := alpha,
    xData := Xp.data, xOff := Xp.offset / elsize,
    incX := Int.tdiv Xp.stride0 (Int.ofNat elsize),
    yData := Yp.data, yOff := Yp.offset / elsize,
    incY := Int.tdiv Yp.stride0 (Int.ofNat elsize),
    aData := Ap.data, aOff := Ap.offset / elsize, lda := lda }

/-- Tail of `GpuArray_rger` from the output-matrix contiguity check on:
`A` non-one-segment is rejected (`GA_VALUE_ERROR`, never copied), then
`setup_order_ger` on `A`, the `property` lookups (made through the
possibly-copied `Xp`, the first array), `blas->setup`, the per-type
backend branch (on `Xp`'s typecode), and `cleanup`. -/
def rgerFinish (env : Env) (alpha : Rat) (X Y A : GpuArray)
    (Xp Yp : GpuArray) (elsize : Nat) (allocd : List String) :
    Res GerCall :=
  if ¬A.oneSegment then ⟨GAErr.valueError, none, allocd, allocd⟩
  else
    match setup_order_ger A with
    | Except.error e => ⟨e, none, allocd, allocd⟩
    | Except.ok (o, lda) =>
      if env.ctxErr ≠ GAErr.noError then ⟨env.ctxErr, none, allocd, allocd⟩
      else if env.blasOpsErr ≠ GAErr.noError then
        ⟨env.blasOpsErr, none, allocd, allocd⟩
      else if env.setupErr ≠ GAErr.noError then
        ⟨env.setupErr, none, allocd, allocd⟩
      else if Xp.typecode = Typecode.gaFloat then
        ⟨env.gerErr (mkGerCall true o (X.dim 0) (Y.dim 0) alpha Xp Yp A lda elsize),
         some (mkGerCall true o (X.dim 0) (Y.dim 0) alpha Xp Yp A lda elsize),
         allocd, allocd⟩
      else
        ⟨env.gerErr (mkGerCall false o (X.dim 0) (Y.dim 0) alpha Xp Yp A lda elsize),
         some (mkGerCall false o (X.dim 0) (Y.dim 0) alpha Xp Yp A lda elsize),
         allocd, allocd⟩

/-- Fallback step for the input vector `Y` of `GpuArray_rger`, then the
tail. -/
def rgerFromY (env : Env) (alpha : Rat) (X Y A : GpuArray) (nocopy : Bool)
    (Xp : GpuArray) (elsize : Nat) (allocd : List String) : Res GerCall :=
  if Y.stride0 < 0 then
    if nocopy then ⟨GAErr.copyError, none, allocd, []⟩
    else
      match env.copyFn Y CopyOrd.anyOrder with
      | Except.error e => ⟨e, none, allocd, allocd⟩
      | Except.ok Y2 =>
        rgerFinish env alpha X Y A Xp Y2 elsize (allocd ++ ["Y"])
  else rgerFinish env alpha X Y A Xp Y elsize allocd

/-- The generated simplified-surface function `GpuArray_rger`
(instance of `ARRAYBLAS_TMPL` for the `ger` descriptor; the first array
argument is `X`): type check on `X`, rank/type-agreement check,
alignment check, `check_dims_ger` (`A`'s shape is
(length of `X`, length of `Y`); returns directly), then the contiguity
fallback for `X`, `Y` (vector inputs) and `A` (matrix output, never
copied), and the tail. -/
def GpuArray_rger (env : Env) (alpha : Rat) (X Y A : GpuArray)
    (nocopy : Bool) : Res GerCall :=
  if X.typecode ≠ Typecode.gaFloat ∧ X.typecode ≠ Typecode.gaDouble then
    ⟨GAErr.invalidError, none, [], []⟩
  else if X.nd ≠ 1 ∨ Y.nd ≠ 1 ∨ A.nd ≠ 2 ∨
      X.typecode ≠ X.typecode ∨ Y.typecode ≠ X.typecode ∨
      A.typecode ≠ X.typecode then
    ⟨GAErr.valueError, none, [], []⟩
  else if ¬X.aligned ∨ ¬Y.aligned ∨ ¬A.aligned then
    ⟨GAErr.unalignedError, none, [], []⟩
  else if A.dim 0 ≠ X.dim 0 ∨ A.dim 1 ≠ Y.dim 0 then
    ⟨GAErr.valueError, none, [], []⟩
  else if X.stride0 < 0 then
    if nocopy then ⟨GAErr.copyError, none, [], []⟩
    else
      match env.copyFn X CopyOrd.anyOrder with
      | Except.error e => ⟨e, none, [], []⟩
      | Except.ok X2 =>
        rgerFromY env alpha X Y A nocopy X2 X.typecode.elsize ["X"]
  else rgerFromY env alpha X Y A nocopy X X.typecode.elsize []

/-- Spec §4.3 step 4 (contiguity fallback) for the `gemv` argument list:
input matrix `A` (copy with `GA_F_ORDER`), input vector `X` (copy with
`GA_ANY_ORDER`), output vector `Y` (always rejected).  Rejection under
`nocopy` is a `GA_COPY_ERROR`; the returned value carries the
possibly-copied arrays and the copies allocated so far, and an error
carries the copies allocated before it. -/
def gemvFallbackStep (env : Env) (nocopy : Bool) (A X Y : GpuArray) :
    Except (GAErr × List String) (GpuArray × GpuArray × List String) :=
  Except.bind
    (if ¬A.oneSegment then
      if nocopy then Except.error (GAErr.copyError, ([] : List String))
      else
        match env.copyFn A CopyOrd.fOrder with
        | Except.error e => Except.error (e, ([] : List String))
        | Except.ok A2 => Except.ok (A2, (["A"] : List String))
    else Except.ok (A, ([] : List String)))
    (fun pa =>
      Except.bind
        (if X.stride0 < 0 then
          if nocopy then Except.error (GAErr.copyError, pa.2)
          else
            match env.copyFn X CopyOrd.anyOrder with
            | Except.error e => Except.error (e, pa.2)
            | Except.ok X2 => Except.ok (X2, pa.2 ++ ["X"])
        else Except.ok (X, pa.2))
        (fun px =>
          if Y.stride0 < 0 then Except.error (GAErr.valueError, px.2)
          else Except.ok (pa.1, px.1, px.2)))

/-- The §4.3 layout-negotiation pipeline for `gemv`, worded step by
step as the spec lists it — type agreement, rank check, alignment
check, contiguity fallback, operation-specific dimension check,
storage-order setup, backend invocation, cleanup on every exit — with
the position of the dimension check as a parameter: `dimsFirst = false`
places it after the contiguity fallback and performs it on the possibly
post-copy arrays (the order the claim states); `dimsFirst = true`
places it before the fallback, on the original arrays. -/
def gemvPipeline (dimsFirst : Bool) (env : Env) (transA : CbTrans)
    (alpha : Rat) (A X : GpuArray) (beta : Rat) (Y : GpuArray)
    (nocopy : Bool) : Res GemvCall :=
  if A.typecode ≠ Typecode.gaFloat ∧ A.typecode ≠ Typecode.gaDouble then
    ⟨GAErr.invalidError, none, [], []⟩
  else if X.typecode ≠ A.typecode ∨ Y.typecode ≠ A.typecode then
    ⟨GAErr.valueError, none, [], []⟩
  else if A.nd ≠ 2 ∨ X.nd ≠ 1 ∨ Y.nd ≠ 1 then
    ⟨GAErr.valueError, none, [], []⟩
  else if ¬A.aligned ∨ ¬X.aligned ∨ ¬Y.aligned then
    ⟨GAErr.unalignedError, none, [], []⟩
  else if dimsFirst ∧ (if transA = CbTrans.noTrans then
      Y.dim 0 ≠ A.dim 0 ∨ X.dim 0 ≠ A.dim 1
    else Y.dim 0 ≠ A.dim 1 ∨ X.dim 0 ≠ A.dim 0) then
    ⟨GAErr.valueError, none, [], []⟩
  else
    match gemvFallbackStep env nocopy A X Y with
    | Except.error (e, al) => ⟨e, none, al, al⟩
    | Except.ok (Ap, Xp, al) =>
      if ¬dimsFirst ∧ (if transA = CbTrans.noTrans then
          Y.dim 0 ≠ Ap.dim 0 ∨ Xp.dim 0 ≠ Ap.dim 1
        else Y.dim 0 ≠ Ap.dim 1 ∨ Xp.dim 0 ≠ Ap.dim 0) then
        ⟨GAErr.valueError, none, al, al⟩
      else rgemvFinish env transA alpha A beta Y Ap Xp A.typecode.elsize al

/-- Spec §4.3 step 4 (contiguity fallback) for the `gemm` argument
list: input matrices `A` and `B` (copies with `GA_F_ORDER`), output
matrix `C` (always rejected). -/
def gemmFallbackStep (env : Env) (nocopy : Bool) (A B C : GpuArray) :
    Except (GAErr × List String) (GpuArray × GpuArray × List String) :=
  Except.bind
    (if ¬A.oneSegment then
      if nocopy then Except.error (GAErr.copyError, ([] : List String))
      else
        match env.copyFn A CopyOrd.fOrder with
        | Except.error e => Except.error (e, ([] : List String))
        | Except.ok A2 => Except.ok (A2, (["A"] : List String))
    else Except.ok (A, ([] : List String)))
    (fun pa =>
      Except.bind
        (if ¬B.oneSegment then
          if nocopy then Except.error (GAErr.copyError, pa.2)
          else
            match env.copyFn B CopyOrd.fOrder with
            | Except.error e => Except.error (e, pa.2)
            | Except.ok B2 => Except.ok (B2, pa.2 ++ ["B"])
        else Except.ok (B, pa.2))
        (fun pb =>
          if ¬C.oneSegment then Except.error (GAErr.valueError, pb.2)
          else Except.ok (pa.1, pb.1, pb.2)))

/-- The §4.3 layout-negotiation pipeline for `gemm`, worded step by
step as the spec lists it, with the position of the dimension check as
a parameter (see `gemvPipeline`). -/
def gemmPipeline (dimsFirst : Bool) (env : Env) (transA transB : CbTrans)
    (alpha : Rat) (A B : GpuArray) (beta : Rat) (C : GpuArray)
    (nocopy : Bool) : Res GemmCall :=
  if A.typecode ≠ Typecode.gaFloat ∧ A.typecode ≠ Typecode.gaDouble then
    ⟨GAErr.invalidError, none, [], []⟩
  else if B.typecode ≠ A.typecode ∨ C.typecode ≠ A.typecode then
    ⟨GAErr.valueError, none, [], []⟩
  else if A.nd ≠ 2 ∨ B.nd ≠ 2 ∨ C.nd ≠ 2 then
    ⟨GAErr.valueError, none, [], []⟩
  else if ¬A.aligned ∨ ¬B.aligned ∨ ¬C.aligned then
    ⟨GAErr.unalignedError, none, [], []⟩
  else if dimsFirst ∧
      (if transB = CbTrans.noTrans then
         B.dim 0 ≠ (if transA = CbTrans.noTrans then A.dim 1 else A.dim 0)
       else
         B.dim 1 ≠ (if transA = CbTrans.noTrans then A.dim 1 else A.dim 0)) then
    ⟨GAErr.valueError, none, [], []⟩
  else if dimsFirst ∧
      (C.dim 0 ≠ (if transA = CbTrans.noTrans then A.dim 0 else A.dim 1) ∨
       C.dim 1 ≠ (if transB = CbTrans.noTrans then B.dim 1 else B.dim 0)) then
    ⟨GAErr.valueError, none, [], []⟩
  else
    match gemmFallbackStep env nocopy A B C with
    | Except.error (e, al) => ⟨e, none, al, al⟩
    | Except.ok (Ap, Bp, al) =>
      if ¬dimsFirst ∧
          ((if transB = CbTrans.noTrans then
              Bp.dim 0 ≠ (if transA = CbTrans.noTrans then Ap.dim 1 else Ap.dim 0)
            else
              Bp.dim 1 ≠ (if transA = CbTrans.noTrans then Ap.dim 1 else Ap.dim 0)) ∨
           C.dim 0 ≠ (if transA = CbTrans.noTrans then Ap.dim 0 else Ap.dim 1) ∨
           C.dim 1 ≠ (if transB = CbTrans.noTrans then Bp.dim 1 else Bp.dim 0)) then
        ⟨GAErr.valueError, none, al, al⟩
      else
        rgemmFinish env transA transB alpha A B beta C Ap Bp
          A.typecode.elsize al

/-- Spec §4.3 step 4 (contiguity fallback) for the `ger` argument list:
input vectors `X` and `Y` (copies with `GA_ANY_ORDER`), output matrix
`A` (always rejected). -/
def gerFallbackStep (env : Env) (nocopy : Bool) (X Y A : GpuArray) :
    Except (GAErr × List String) (GpuArray × GpuArray × List String) :=
  Except.bind
    (if X.stride0 < 0 then
      if nocopy then Except.error (GAErr.copyError, ([] : List String))
      else
        match env.copyFn X CopyOrd.anyOrder with
        | Except.error e => Except.error (e, ([] : List String))
        | Except.ok X2 => Except.ok (X2, (["X"] : List String))
    else Except.ok (X, ([] : List String)))
    (fun px =>
      Except.bind
        (if Y.stride0 < 0 then
          if nocopy then Except.error (GAErr.copyError, px.2)
          else
            match env.copyFn Y CopyOrd.anyOrder with
            | Except.error e => Except.error (e, px.2)
            | Except.ok Y2 => Except.ok (Y2, px.2 ++ ["Y"])
        else Except.ok (Y, px.2))
        (fun py =>
          if ¬A.oneSegment then Except.error (GAErr.valueError, py.2)
          else Except.ok (px.1, py.1, py.2)))

/-- The §4.3 layout-negotiation pipeline for `ger`, worded step by step
as the spec lists it, with the position of the dimension check as a
parameter (see `gemvPipeline`). -/
def gerPipeline (dimsFirst : Bool) (env : Env) (alpha : Rat)
    (X Y A : GpuArray) (nocopy : Bool) : Res GerCall :=
  if X.typecode ≠ Typecode.gaFloat ∧ X.typecode ≠ Typecode.gaDouble then
    ⟨GAErr.invalidError, none, [], []⟩
  else if Y.typecode ≠ X.typecode ∨ A.typecode ≠ X.typecode then
    ⟨GAErr.valueError, none, [], []⟩
  else if X.nd ≠ 1 ∨ Y.nd ≠ 1 ∨ A.nd ≠ 2 then
    ⟨GAErr.valueError, none, [], []⟩
  else if ¬X.aligned ∨ ¬Y.aligned ∨ ¬A.aligned then
    ⟨GAErr.unalignedError, none, [], []⟩
  else if dimsFirst ∧ (A.dim 0 ≠ X.dim 0 ∨ A.dim 1 ≠ Y.dim 0) then
    ⟨GAErr.valueError, none, [], []⟩
  else
    match gerFallbackStep env nocopy X Y A with
    | Except.error (e, al) => ⟨e, none, al, al⟩
    | Except.ok (Xp, Yp, al) =>
      if ¬dimsFirst ∧ (A.dim 0 ≠ Xp.dim 0 ∨ A.dim 1 ≠ Yp.dim 0) then
        ⟨GAErr.valueError, none, al, al⟩
      else rgerFinish env alpha X Y A Xp Yp X.typecode.elsize al

/-- A concrete oracle for the concrete evaluations below: copies
succeed and hand back a fresh contiguous array with the same shape and
element type, property lookups, setup and backend calls all succeed. -/
def env0 : Env :=
  { copyFn := fun a _ =>
      Except.ok { a with
        data := a.data + 100,
        offset := 0,
        strides := a.strides.map (fun s => if s < 0 then -s else s),
        aligned := true,
        fContig := true,
        cContig := true,
        oneSegment := true },
    ctxErr := GAErr.noError, blasOpsErr := GAErr.noError,
    setupErr := GAErr.noError,
    gemvErr := fun _ => GAErr.noError, gemmErr := fun _ => GAErr.noError,
    gerErr := fun _ => GAErr.noError,
    alloc := fun _ d t =>
      { typecode := t, data := 500, offset := 0, dims := d,
        strides := d.map (fun _ => 4), aligned := true, fContig := true,
        cContig := true, oneSegment := true },
    pycopy := fun a => { a with data := a.data + 200 } }

/-- A concrete 2-by-3 C-contiguous float matrix. -/
def matA23 : GpuArray :=
  { typecode := Typecode.gaFloat, data := 1, offset := 0, dims := [2, 3],
    strides := [12, 4], aligned := true, fContig := false, cContig := true,
    oneSegment := true }

/-- A concrete 2-by-3 float matrix that is not one contiguous segment
(each row is followed by a gap). -/
def matA23gap : GpuArray :=
  { typecode := Typecode.gaFloat, data := 2, offset := 0, dims := [2, 3],
    strides := [32, 4], aligned := true, fContig := false, cContig := false,
    oneSegment := false }

/-- A concrete contiguous float vector of length `n` on buffer `d`. -/
def vecF (n : Nat) (d : Nat) : GpuArray :=
  { typecode := Typecode.gaFloat, data := d, offset := 0, dims := [n],
    strides := [4], aligned := true, fContig := true, cContig := true,
    oneSegment := true }

/-- A concrete float vector of length `n` with a negative stride. -/
def vecNeg (n : Nat) (d : Nat) : GpuArray :=
  { typecode := Typecode.gaFloat, data := d, offset := 0, dims := [n],
    strides := [-4], aligned := true, fContig := false, cContig := false,
    oneSegment := false }

/-- A concrete 2-by-2 float matrix stored C-contiguously only. -/
def mat22c : GpuArray :=
  { typecode := Typecode.gaFloat, data := 11, offset := 0, dims := [2, 2],
    strides := [8, 4], aligned := true, fContig := false, cContig := true,
    oneSegment := true }

/-- A concrete 2-by-2 float matrix stored F-contiguously only. -/
def mat22f : GpuArray :=
  { typecode := Typecode.gaFloat, data := 12, offset := 0, dims := [2, 2],
    strides := [4, 8], aligned := true, fContig := true, cContig := false,
    oneSegment := true }

/-- A second concrete 2-by-2 C-contiguous float matrix. -/
def mat22cB : GpuArray :=
  { typecode := Typecode.gaFloat, data := 13, offset := 0, dims := [2, 2],
    strides := [8, 4], aligned := true, fContig := false, cContig := true,
    oneSegment := true }


/-- Python-level exception raised by the generated high-level binding:
`TypeError` (not a matrix), `ValueError` (missing output with nonzero
beta), or `GpuArrayException` wrapping the simplified surface's
status. -/
inductive PyExc
  | pyTypeError
  | pyValueError
  | gpuArrayExc (e : GAErr)
deriving DecidableEq, Repr

/-- Observable outcome of one high-level (`blas.pyx`) call: the
returned array or the exception raised, the allocator invocation made
for a missing output (which allocator, requested shape), whether the
supplied output was defensively copied via `pygpu_copy`, and the
output array and `nocopy` flag passed down to the simplified surface
(absent when an exception fired before that call). -/
structure PyRes (C : Type) where
  outcome : Except PyExc GpuArray
  alloc : Option (AllocKind × List Nat)
  outCopied : Bool
  pipeNocopy : Option Bool
  pipeOut : Option GpuArray
deriving Repr

/-- Tail of the generated `def gemv(...)` binding: unless overwriting
was requested the output is first replaced by a `pygpu_copy`, then
`pygpu_blas_rgemv` invokes the simplified surface with the literal
`nocopy = 0` and raises `GpuArrayException` on any nonzero status;
otherwise `Y` is returned. -/
def gemv_pyx_tail (env : Env) (transA : CbTrans) (alpha : Rat)
    (A X : GpuArray) (beta : Rat) (Y0 : GpuArray) (overwrite_y : Bool)
    (al : Option (AllocKind × List Nat)) : PyRes GemvCall :=
  let Y := if overwrite_y then Y0 else env.pycopy Y0
  let r := GpuArray_rgemv env transA alpha A X beta Y false
  { outcome :=
      if r.err ≠ GAErr.noError then Except.error (PyExc.gpuArrayExc r.err)
      else Except.ok Y,
    alloc := al, outCopied := !overwrite_y, pipeNocopy := some false,
    pipeOut := some Y }

/-- The generated high-level binding
`def gemv(alpha, A, X, beta=0.0, Y=None, trans_a=False,
overwrite_y=False)`: derive the transpose enum from the boolean
option, require `A` to be a matrix (TypeError), infer the output
length `Yshp` as the rows of `A` after transpose; when `Y` is absent,
require `beta == 0.0` (ValueError) and allocate `Y` with `pygpu_empty`
of shape `[Yshp]`, marking it overwritable; then run the tail. -/
def blas_pyx_gemv (env : Env) (alpha : Rat) (A X : GpuArray) (beta : Rat)
    (Yopt : Option GpuArray) (trans_a : Bool) (overwrite_y : Bool) :
    PyRes GemvCall :=
  let transA := if trans_a then CbTrans.trans else CbTrans.noTrans
  if A.nd ≠ 2 then
    ⟨Except.error PyExc.pyTypeError, none, false, none, none⟩
  else
    let Yshp := if transA = CbTrans.noTrans then A.dim 0 else A.dim 1
    match Yopt with
    | none =>
      if beta ≠ 0 then
        ⟨Except.error PyExc.pyValueError, none, false, none, none⟩
      else
        gemv_pyx_tail env transA alpha A X beta
          (env.alloc AllocKind.empty [Yshp] A.typecode) true
          (some (AllocKind.empty, [Yshp]))
    | some Y => gemv_pyx_tail env transA alpha A X beta Y overwrite_y none

/-- Tail of the generated `def gemm(...)` binding (see
`gemv_pyx_tail`). -/
def gemm_pyx_tail (env : Env) (transA transB : CbTrans) (alpha : Rat)
    (A B : GpuArray) (beta : Rat) (C0 : GpuArray) (overwrite_c : Bool)
    (al : Option (AllocKind × List Nat)) : PyRes GemmCall :=
  let C := if overwrite_c then C0 else env.pycopy C0
  let r := GpuArray_rgemm env transA transB alpha A B beta C false
  { outcome :=
      if r.err ≠ GAErr.noError then Except.error (PyExc.gpuArrayExc r.err)
      else Except.ok C,
    alloc := al, outCopied := !overwrite_c, pipeNocopy := some false,
    pipeOut := some C }

/-- The generated high-level binding
`def gemm(alpha, A, B, beta=0.0, C=None, trans_a=False, trans_b=False,
overwrite_c=False)`: require `A` and `B` to be matrices (TypeError),
infer `Cshp = (rows of A after transpose, cols of B after transpose)`;
when `C` is absent, require `beta == 0.0` (ValueError) and allocate `C`
with `pygpu_empty` of that shape; then run the tail. -/
def blas_pyx_gemm (env : Env) (alpha : Rat) (A B : GpuArray) (beta : Rat)
    (Copt : Option GpuArray) (trans_a trans_b : Bool)
    (overwrite_c : Bool) : PyRes GemmCall :=
  let transA := if trans_a then CbTrans.trans else CbTrans.noTrans
  let transB := if trans_b then CbTrans.trans else CbTrans.noTrans
  if A.nd ≠ 2 then
    ⟨Except.error PyExc.pyTypeError, none, false, none, none⟩
  else if B.nd ≠ 2 then
    ⟨Except.error PyExc.pyTypeError, none, false, none, none⟩
  else
    let c0 := if transA = CbTrans.noTrans then A.dim 0 else A.dim 1
    let c1 := if transB = CbTrans.noTrans then B.dim 1 else B.dim 0
    match Copt with
    | none =>
      if beta ≠ 0 then
        ⟨Except.error PyExc.pyValueError, none, false, none, none⟩
      else
        gemm_pyx_tail env transA transB alpha A B beta
          (env.alloc AllocKind.empty [c0, c1] A.typecode) true
          (some (AllocKind.empty, [c0, c1]))
    | some C => gemm_pyx_tail env transA transB alpha A B beta C overwrite_c none

/-- Tail of the generated `def ger(...)` binding (see
`gemv_pyx_tail`). -/
def ger_pyx_tail (env : Env) (alpha : Rat) (X Y : GpuArray)
    (A0 : GpuArray) (overwrite_a : Bool)
    (al : Option (AllocKind × List Nat)) : PyRes GerCall :=
  let A := if overwrite_a then A0 else env.pycopy A0
  let r := GpuArray_rger env alpha X Y A false
  { outcome :=
      if r.err ≠ GAErr.noError then Except.error (PyExc.gpuArrayExc r.err)
      else Except.ok A,
    alloc := al, outCopied := !overwrite_a, pipeNocopy := some false,
    pipeOut := some A }

/-- The generated high-level binding
`def ger(alpha, X, Y, A=None, overwrite_a=False)`: when `A` is absent
it is allocated with `pygpu_zeros` of shape
`(len X, len Y)` — unconditionally, there is no scale-coefficient
check — and marked overwritable; then the tail runs. -/
def blas_pyx_ger (env : Env) (alpha : Rat) (X Y : GpuArray)
    (Aopt : Option GpuArray) (overwrite_a : Bool) : PyRes GerCall :=
  match Aopt with
  | none =>
    ger_pyx_tail env alpha X Y
      (env.alloc AllocKind.zeros [X.dim 0, Y.dim 0] X.typecode) true
      (some (AllocKind.zeros, [X.dim 0, Y.dim 0]))
  | some A => ger_pyx_tail env alpha X Y A overwrite_a none

/-- An oracle none of whose external operations ever reports
`GA_COPY_ERROR` (the error code the pipeline reserves for refusing an
implicit copy; `GpuArray_copy`, the property lookups, `setup` and the
backend kernels return their own codes). -/
def EnvNoCopyErr (env : Env) : Prop :=
  (∀ a o e, env.copyFn a o = Except.error e → e ≠ GAErr.copyError) ∧
  env.ctxErr ≠ GAErr.copyError ∧
  env.blasOpsErr ≠ GAErr.copyError ∧
  env.setupErr ≠ GAErr.copyError ∧
  (∀ c, env.gemvErr c ≠ GAErr.copyError) ∧
  (∀ c, env.gemmErr c ≠ GAErr.copyError) ∧
  (∀ c, env.gerErr c ≠ GAErr.copyError)

/-- A concrete 5-by-6 C-contiguous float matrix. -/
def mat56c : GpuArray :=
  { typecode := Typecode.gaFloat, data := 14, offset := 0, dims := [5, 6],
    strides := [24, 4], aligned := true, fContig := false, cContig := true,
    oneSegment := true }

/-- ASCII upper-casing of a character (`str.upper()` semantics for the
identifiers the generator handles). -/
def chUp (c : Char) : Char :=
  if 97 <= c.toNat && c.toNat <= 122 then Char.ofNat (c.toNat - 32) else c

/-- ASCII lower-casing of a character. -/
def chLow (c : Char) : Char :=
  if 65 <= c.toNat && c.toNat <= 90 then Char.ofNat (c.toNat + 32) else c

/-- `str.upper()`. -/
def upperS (s : String) : String := (String.mk (s.data.map chUp))

/-- `str.lower()`. -/
def lowerS (s : String) : String := (String.mk (s.data.map chLow))

/-- `str[-n:]` (the last n characters). -/
def takeRightS (s : String) (n : Nat) : String :=
  (String.mk (s.data.reverse.take n).reverse)

/-- An element type of the generator (`Dtype`): C type name and BLAS
letter; `float` is `('float', 's')`, `double` is `('double', 'd')`. -/
structure DtypeD where
  name : String
  c : String
deriving DecidableEq

/-- `Dtype('float', 's')` from the generator. -/
def floatT : DtypeD := { name := "float", c := "s" }

/-- `Dtype('double', 'd')` from the generator. -/
def doubleT : DtypeD := { name := "double", c := "d" }

/-- The argument classes of the generator: `scalar`, `size`, `inc`,
`trans`, `matrix`, `vector`. -/
inductive ArgClass
  | scalarA
  | sizeA
  | incA
  | transA
  | matrixA
  | vectorA
deriving DecidableEq

/-- An argument descriptor: class, name, the optional Python default
(`pydef`), and the output flag (array arguments only; an output array
argument gets `pydef = 'None'`). `const` is never set by `make_ops`, so
it is omitted. -/
structure ArgD where
  cls : ArgClass
  name : String
  pydef : Option String
  isoutput : Bool
deriving DecidableEq

/-- `scalar(name, pydef=...)` of the generator. -/
def mkScalar (n : String) (pydef : Option String) : ArgD :=
  { cls := ArgClass.scalarA, name := n, pydef := pydef, isoutput := false }

/-- `size(name)` of the generator. -/
def mkSize (n : String) : ArgD :=
  { cls := ArgClass.sizeA, name := n, pydef := none, isoutput := false }

/-- `inc(name)` of the generator. -/
def mkInc (n : String) : ArgD :=
  { cls := ArgClass.incA, name := n, pydef := none, isoutput := false }

/-- `trans(name)` of the generator. -/
def mkTrans (n : String) : ArgD :=
  { cls := ArgClass.transA, name := n, pydef := none, isoutput := false }

/-- `matrix(name, output=...)` of the generator; `ArrayArg.__init__`
sets `pydef` to `'None'` exactly when `output` is set. -/
def mkMatrix (n : String) (output : Bool) : ArgD :=
  { cls := ArgClass.matrixA, name := n,
    pydef := if output then some "None" else none, isoutput := output }

/-- `vector(name, output=...)` of the generator. -/
def mkVector (n : String) (output : Bool) : ArgD :=
  { cls := ArgClass.vectorA, name := n,
    pydef := if output then some "None" else none, isoutput := output }

/-- `Argument.ismatrix` / `matrix.ismatrix` of the generator. -/
def ArgD.ismatrix (a : ArgD) : Bool := a.cls = ArgClass.matrixA

/-- `Argument.isarray` / `ArrayArg.isarray` of the generator. -/
def ArgD.isarray (a : ArgD) : Bool :=
  a.cls = ArgClass.matrixA || a.cls = ArgClass.vectorA

/-- `format_as_arg` per class: `scalar` uses the passed C type,
`size`/`inc`/`trans` use their fixed `ctype` attribute, arrays expand
to a `gpudata` pointer plus an offset parameter. -/
def ArgD.format_as_arg (a : ArgD) (ctype : String) : String :=
  match a.cls with
  | ArgClass.scalarA => ctype ++ " " ++ a.name
  | ArgClass.sizeA => "size_t " ++ a.name
  | ArgClass.incA => "int " ++ a.name
  | ArgClass.transA => "cb_transpose " ++ a.name
  | _ => "gpudata *" ++ a.name ++ ", size_t off" ++ a.name

/-- `format_as_call` per class: the `tf_macro` wrapper around the name
(`SCAL`, `SZ`, empty for `inc`, `TRANS`) or the `ARRAY(name, dtype)`
form for arrays. -/
def ArgD.format_as_call (a : ArgD) : String :=
  match a.cls with
  | ArgClass.scalarA => "SCAL(" ++ a.name ++ ")"
  | ArgClass.sizeA => "SZ(" ++ a.name ++ ")"
  | ArgClass.incA => "(" ++ a.name ++ ")"
  | ArgClass.transA => "TRANS(" ++ a.name ++ ")"
  | _ => "ARRAY(" ++ a.name ++ ", dtype)"

/-- `format_as_callarg` per class: scalar cast, lower-cased size
variable, stride expression for increments, the name for transposes,
and the data/offset pair for arrays. -/
def ArgD.format_as_callarg (a : ArgD) (ctype : String) : String :=
  match a.cls with
  | ArgClass.scalarA => "(" ++ ctype ++ ")" ++ a.name
  | ArgClass.sizeA => lowerS a.name
  | ArgClass.incA => takeRightS a.name 1 ++ "p->strides[0] / elsize"
  | ArgClass.transA => a.name
  | _ => a.name ++ "p->data, " ++ a.name ++ "p->offset / elsize"

/-- `format_simple_arg`: same as `format_as_arg` for non-array classes
(`format_simple_arg = format_as_arg` on `ScalarArg`), and
`arraytype + name` for arrays. -/
def ArgD.format_simple_arg (a : ArgD) (ctype arraytype : String) : String :=
  match a.cls with
  | ArgClass.scalarA => ctype ++ " " ++ a.name
  | ArgClass.sizeA => "size_t " ++ a.name
  | ArgClass.incA => "int " ++ a.name
  | ArgClass.transA => "cb_transpose " ++ a.name
  | _ => arraytype ++ a.name

/-- `format_simple_call`: the plain name for non-array classes, the
`arraypat % name` substitution for arrays; the pattern `pre%spost` is
passed as its two halves. -/
def ArgD.format_simple_callP (a : ArgD) (pre post : String) : String :=
  if a.isarray then pre ++ a.name ++ post else a.name

/-- `format_pyarg`: `double name[=pydef]` for scalars and
`GpuArray name[=pydef]` for arrays (the only classes it is called
on). -/
def ArgD.format_pyarg (a : ArgD) : String :=
  match a.cls with
  | ArgClass.scalarA =>
    "double " ++ a.name ++
      (match a.pydef with
       | some d => "=" ++ d
       | none => "")
  | _ =>
    "GpuArray " ++ a.name ++
      (match a.pydef with
       | some d => "=" ++ d
       | none => "")

/-- A `BlasOp` descriptor: name, element types, argument list and the
four op-specific code snippets. -/
structure BlasOpD where
  name : String
  types : List DtypeD
  arguments : List ArgD
  check_dims : String
  setup_order : String
  py_decls : String
  py_ensure_output : String
deriving DecidableEq

/-- `BlasOp.has_order`: set when any argument is a matrix. -/
def BlasOpD.has_order (op : BlasOpD) : Bool :=
  op.arguments.any ArgD.ismatrix

/-- `BlasOp.matrix_args`. -/
def BlasOpD.matrix_args (op : BlasOpD) : List ArgD :=
  op.arguments.filter ArgD.ismatrix

/-- `BlasOp.array_args`. -/
def BlasOpD.array_args (op : BlasOpD) : List ArgD :=
  op.arguments.filter ArgD.isarray

/-- `BlasOp.size_args` (`args_per_class(size)`). -/
def BlasOpD.size_args (op : BlasOpD) : List ArgD :=
  op.arguments.filter (fun a => a.cls = ArgClass.sizeA)

/-- `BlasOp.simple_args`: arrays, scalars and transposes. -/
def BlasOpD.simple_args (op : BlasOpD) : List ArgD :=
  op.arguments.filter
    (fun a => a.isarray || a.cls = ArgClass.scalarA ||
      a.cls = ArgClass.transA)

/-- `BlasOp.py_args`: arrays and scalars. -/
def BlasOpD.py_args (op : BlasOpD) : List ArgD :=
  op.arguments.filter (fun a => a.isarray || a.cls = ArgClass.scalarA)

/-- `BlasOp.format_arguments`: a `cb_order order, ` prefix when the op
has a storage order, then the `format_as_arg` renderings joined by
commas. -/
def BlasOpD.format_arguments (op : BlasOpD) (ctype : String) : String :=
  (if op.has_order then "cb_order order, " else "") ++
    String.intercalate ", " (op.arguments.map (fun a => a.format_as_arg ctype))

/-- `BlasOp.format_blas_args`. -/
def BlasOpD.format_blas_args (op : BlasOpD) (ctype : String) : String :=
  String.intercalate ", " (op.arguments.map (fun a => a.format_as_callarg ctype))

/-- `BlasOp.format_call_args`: an `ORDER ` prefix when the op has a
storage order, then the `format_as_call` renderings joined by
commas. -/
def BlasOpD.format_call_args (op : BlasOpD) : String :=
  (if op.has_order then "ORDER " else "") ++
    String.intercalate ", " (op.arguments.map ArgD.format_as_call)

/-- `BlasOp.format_simple_args`: the simple-argument renderings of the
simple arguments only. -/
def BlasOpD.format_simple_args (op : BlasOpD) (ctype arraytype : String) :
    String :=
  String.intercalate ", "
    (op.simple_args.map (fun a => a.format_simple_arg ctype arraytype))

/-- `BlasOp.format_simple_call`. -/
def BlasOpD.format_simple_callP (op : BlasOpD) (pre post : String) : String :=
  String.intercalate ", "
    (op.simple_args.map (fun a => a.format_simple_callP pre post))

/-- `BlasOp.format_pyargs`: python arguments, then `trans_x=False`
options for the transposes, then `overwrite_x=False` options for the
output arrays. -/
def BlasOpD.format_pyargs (op : BlasOpD) : String :=
  String.intercalate ", "
    (op.py_args.map ArgD.format_pyarg ++
     (op.arguments.filter (fun a => a.cls = ArgClass.transA)).map
       (fun t => "trans_" ++ lowerS (takeRightS t.name 1) ++ "=False") ++
     (op.array_args.filter (fun a => a.isoutput)).map
       (fun a => "overwrite_" ++ lowerS a.name ++ "=False"))

/-- The `firsta` template variable: the name of the first array
argument. -/
def BlasOpD.firsta (op : BlasOpD) : String :=
  match op.array_args with
  | a :: _ => a.name
  | [] => ""

/-- The `outa` template variable: the joined names of the output array
arguments. -/
def BlasOpD.outa (op : BlasOpD) : String :=
  String.intercalate ", "
    ((op.array_args.filter (fun a => a.isoutput)).map ArgD.name)

/-- The `ndcond` helper of the implementation template. -/
def ndcond (a : ArgD) : String :=
  if a.ismatrix then a.name ++ "->nd != 2" else a.name ++ "->nd != 1"

/-- The `typecond` helper of the implementation template. -/
def typecond (first : String) (a : ArgD) : String :=
  a.name ++ "->typecode != " ++ first ++ "->typecode"

/-- The `aligncond` helper of the implementation template. -/
def aligncond (a : ArgD) : String :=
  "!(" ++ a.name ++ "->flags & GA_ALIGNED)"

/-- The `BS` parameter of the generator: a single backslash. -/
def bsS : String := "\\"

/-- The check_dims_gemv snippet of the generator, verbatim. -/
def checkDimsGemvC : String :=
  "\n  if (transA == cb_no_trans) \x7b\n    m = A->dimensions[0];\n    n = A->dimensions[1];\n  \x7d else \x7b\n    m = A->dimensions[1];\n    n = A->dimensions[0];\n  \x7d\n\n  if (Y->dimensions[0] != m || X->dimensions[0] != n)\n    return GA_VALUE_ERROR;\n\n  m = A->dimensions[0];\n  n = A->dimensions[1];\n"

/-- The setup_order_gemv snippet of the generator, verbatim. -/
def setupOrderGemvC : String :=
  "\n  if (Ap->flags & GA_F_CONTIGUOUS) \x7b\n    o = cb_fortran;\n    lda = Ap->dimensions[0];\n  \x7d else if (Ap->flags & GA_C_CONTIGUOUS) \x7b\n    o = cb_c;\n    lda = Ap->dimensions[1];\n  \x7d else \x7b\n    /* Might be worth looking at making degenerate matrices (1xn) work here. */\n    err = GA_VALUE_ERROR;\n    goto cleanup;\n  \x7d\n"

/-- The py_decls_gemv snippet of the generator, verbatim. -/
def pyDeclsGemvC : String :=
  "cdef size_t Yshp"

/-- The py_ensure_output_gemv snippet of the generator, verbatim. -/
def pyEnsureGemvC : String :=
  "\n    if A.ga.nd != 2:\n        raise TypeError, \"A is not a matrix\"\n    if transA == cb_no_trans:\n        Yshp = A.ga.dimensions[0]\n    else:\n        Yshp = A.ga.dimensions[1]\n    if Y is None:\n        if beta != 0.0:\n            raise ValueError, \"Y not provided and beta != 0\"\n        Y = pygpu_empty(1, &Yshp, A.ga.typecode, GA_ANY_ORDER, A.context, None)\n        overwrite_y = True\n"

/-- The check_dims_gemm snippet of the generator, verbatim. -/
def checkDimsGemmC : String :=
  "\n  if (transA == cb_no_trans) \x7b\n    m = A->dimensions[0];\n    k = A->dimensions[1];\n  \x7d else \x7b\n    m = A->dimensions[1];\n    k = A->dimensions[0];\n  \x7d\n\n  if (transB == cb_no_trans) \x7b\n    n = B->dimensions[1];\n    if (B->dimensions[0] != k)\n      return GA_VALUE_ERROR;\n  \x7d else \x7b\n    n = B->dimensions[0];\n    if (B->dimensions[1] != k)\n      return GA_VALUE_ERROR;\n  \x7d\n\n  if (C->dimensions[0] != m || C->dimensions[1] != n)\n    return GA_VALUE_ERROR;\n"

/-- The setup_order_gemm snippet of the generator, verbatim. -/
def setupOrderGemmC : String :=
  "\n  if (Cp->flags & GA_F_CONTIGUOUS) \x7b\n    o = cb_fortran;\n    ldc = Cp->dimensions[0];\n  \x7d else if (Cp->flags & GA_C_CONTIGUOUS) \x7b\n    o = cb_c;\n    ldc = Cp->dimensions[1];\n  \x7d else \x7b\n    err = GA_VALUE_ERROR;\n    goto cleanup;\n  \x7d\n  if (Ap->flags & GA_F_CONTIGUOUS) \x7b\n    lda = Ap->dimensions[0];\n    if (o == cb_c) \x7b\n      if (transA == cb_no_trans)\n        transA = cb_trans;\n      else\n        transA = cb_no_trans;\n    \x7d\n  \x7d else if (Ap->flags & GA_C_CONTIGUOUS) \x7b\n    lda = Ap->dimensions[1];\n    if (o == cb_fortran) \x7b\n      if (transA == cb_no_trans)\n        transA = cb_trans;\n      else\n        transA = cb_no_trans;\n    \x7d\n  \x7d else \x7b\n    err = GA_VALUE_ERROR;\n    goto cleanup;\n  \x7d\n  if (Bp->flags & GA_F_CONTIGUOUS) \x7b\n    ldb = Bp->dimensions[0];\n    if (o == cb_c) \x7b\n      if (transB == cb_no_trans)\n        transB = cb_trans;\n      else\n        transB = cb_no_trans;\n    \x7d\n  \x7d else if (Bp->flags & GA_C_CONTIGUOUS) \x7b\n    ldb = Bp->dimensions[1];\n    if (o == cb_fortran) \x7b\n      if (transB == cb_no_trans)\n        transB = cb_trans;\n      else\n        transB = cb_no_trans;\n    \x7d\n  \x7d else \x7b\n    err = GA_VALUE_ERROR;\n    goto cleanup;\n  \x7d\n"

/-- The py_decls_gemm snippet of the generator, verbatim. -/
def pyDeclsGemmC : String :=
  "cdef size_t[2] Cshp"

/-- The py_ensure_output_gemm snippet of the generator, verbatim. -/
def pyEnsureGemmC : String :=
  "\n    if A.ga.nd != 2:\n        raise TypeError, \"A is not a matrix\"\n    if B.ga.nd != 2:\n        raise TypeError, \"B is not a matrix\"\n    if transA == cb_no_trans:\n        Cshp[0] = A.ga.dimensions[0]\n    else:\n        Cshp[0] = A.ga.dimensions[1]\n    if transB == cb_no_trans:\n        Cshp[1] = B.ga.dimensions[1]\n    else:\n        Cshp[1] = B.ga.dimensions[0]\n    if C is None:\n        if beta != 0.0:\n            raise ValueError, \"C not provided and beta != 0\"\n        C = pygpu_empty(2, Cshp, A.ga.typecode, GA_ANY_ORDER, A.context, None)\n        overwrite_c = True\n"

/-- The check_dims_ger snippet of the generator, verbatim. -/
def checkDimsGerC : String :=
  "\n  m = X->dimensions[0];\n  n = Y->dimensions[0];\n  if (A->dimensions[0] != m || A->dimensions[1] != n)\n    return GA_VALUE_ERROR;\n"

/-- The setup_order_ger snippet of the generator, verbatim. -/
def setupOrderGerC : String :=
  "\n  if (Ap->flags & GA_F_CONTIGUOUS) \x7b\n    o = cb_fortran;\n    lda = Ap->dimensions[0];\n  \x7d else if (Ap->flags & GA_C_CONTIGUOUS) \x7b\n    o = cb_c;\n    lda = Ap->dimensions[1];\n  \x7d else \x7b\n    /* Might be worth looking at making degenerate matrices (1xn) work here. */\n    err = GA_VALUE_ERROR;\n    goto cleanup;\n  \x7d\n"

/-- The py_decls_ger snippet of the generator, verbatim. -/
def pyDeclsGerC : String :=
  "cdef size_t[2] Ashp"

/-- The py_ensure_output_ger snippet of the generator, verbatim. -/
def pyEnsureGerC : String :=
  "\n    if A is None:\n        Ashp[0] = X.ga.dimensions[0];\n        Ashp[1] = Y.ga.dimensions[0];\n        A = pygpu_zeros(2, Ashp, X.ga.typecode, GA_ANY_ORDER, X.context, None)\n        overwrite_a = True\n"

/-- The `gemv` descriptor from `make_ops`. -/
def gemvOp : BlasOpD :=
  { name := "gemv", types := [floatT, doubleT],
    arguments :=
      [mkTrans "transA", mkSize "M", mkSize "N", mkScalar "alpha" none,
       mkMatrix "A" false, mkSize "lda", mkVector "X" false, mkInc "incX",
       mkScalar "beta" (some "0.0"), mkVector "Y" true, mkInc "incY"],
    check_dims := checkDimsGemvC, setup_order := setupOrderGemvC,
    py_decls := pyDeclsGemvC, py_ensure_output := pyEnsureGemvC }

/-- The `gemm` descriptor from `make_ops`. -/
def gemmOp : BlasOpD :=
  { name := "gemm", types := [floatT, doubleT],
    arguments :=
      [mkTrans "transA", mkTrans "transB", mkSize "M", mkSize "N",
       mkSize "K", mkScalar "alpha" none, mkMatrix "A" false, mkSize "lda",
       mkMatrix "B" false, mkSize "ldb", mkScalar "beta" none,
       mkMatrix "C" true, mkSize "ldc"],
    check_dims := checkDimsGemmC, setup_order := setupOrderGemmC,
    py_decls := pyDeclsGemmC, py_ensure_output := pyEnsureGemmC }

/-- The `ger` descriptor from `make_ops`. -/
def gerOp : BlasOpD :=
  { name := "ger", types := [floatT, doubleT],
    arguments :=
      [mkSize "M", mkSize "N", mkScalar "alpha" none, mkVector "X" false,
       mkInc "incX", mkVector "Y" false, mkInc "incY", mkMatrix "A" true,
       mkSize "lda"],
    check_dims := checkDimsGerC, setup_order := setupOrderGerC,
    py_decls := pyDeclsGerC, py_ensure_output := pyEnsureGerC }

/-- `OPS = make_ops()`. -/
def OPS : List BlasOpD := [gemvOp, gemmOp, gerOp]

/-- Render of the backend macro template (generic_blas.inc.c), transliterated line by line
from the corresponding template of the generator. -/
def renderGeneric (ops : List BlasOpD) : String :=
  "\n/* This file is generated by gen_blas.py in the root of the distribution */\n#if !defined(FETCH_CONTEXT) || !defined(PREFIX) || !defined(ARRAY) || !defined(POST_CALL)\n#error \"required macros not defined\"\n#endif\n\n#ifdef ORDER\n"
  ++ String.join (ops.map (fun op =>
      "#ifndef PREP_ORDER_"
      ++ (upperS op.name)
      ++ "\n#define PREP_ORDER_"
      ++ (upperS op.name)
      ++ "\n#endif\n#ifndef HANDLE_ORDER_"
      ++ (upperS op.name)
      ++ "\n#define HANDLE_ORDER_"
      ++ (upperS op.name)
      ++ "\n#endif\n"))
  ++ "#else\n#define ORDER\n#endif\n\n#ifndef INIT_ARGS\n#define INIT_ARGS\n#endif\n\n#ifndef TRAIL_ARGS\n#define TRAIL_ARGS\n#endif\n\n#ifndef SZ\n#define SZ(a) a\n#endif\n\n#ifndef TRANS\n#define TRANS(t) t\n#endif\n\n#ifndef SCAL\n#define SCAL(s) s\n#endif\n\n#ifndef FUNC_INIT\n#define FUNC_INIT\n#endif\n\n#ifndef FUNC_FINI\n#define FUNC_FINI\n#endif\n\n#define __GLUE(part1, part2) __GLUE_INT(part1, part2)\n#define __GLUE_INT(part1, part2) part1 ## part2\n\n"
  ++ String.join (ops.map (fun op =>
      "#define "
      ++ (upperS op.name)
      ++ "(dtype, typec, TYPEC)\t\t\t    "
      ++ bsS
      ++ "\n  static int typec ## "
      ++ op.name
      ++ "("
      ++ (op.format_arguments "dtype")
      ++ ") \x7b "
      ++ bsS
      ++ "\n    FETCH_CONTEXT("
      ++ op.firsta
      ++ ");\t\t\t    "
      ++ bsS
      ++ "\n    FUNC_DECLS;\t\t\t\t\t\t\t    "
      ++ bsS
      ++ "\n    PREP_ORDER_"
      ++ (upperS op.name)
      ++ ";\t\t                    "
      ++ bsS
      ++ "\n\t\t\t\t\t\t\t\t    "
      ++ bsS
      ++ "\n    HANDLE_ORDER_"
      ++ (upperS op.name)
      ++ ";\t                            "
      ++ bsS
      ++ "\n    FUNC_INIT;\t\t\t\t\t\t\t    "
      ++ bsS
      ++ "\n\t\t\t\t\t\t\t\t    "
      ++ bsS
      ++ "\n"
      ++ String.join (op.array_args.map (fun a =>
          "    ARRAY_INIT("
          ++ a.name
          ++ ");\t\t\t\t\t    "
          ++ bsS
          ++ "\n"))
      ++ "\t\t\t\t\t\t\t\t    "
      ++ bsS
      ++ "\n    PRE_CALL __GLUE(PREFIX(typec, TYPEC), "
      ++ op.name
      ++ ")(INIT_ARGS "
      ++ op.format_call_args
      ++ " TRAIL_ARGS); "
      ++ bsS
      ++ "\n    POST_CALL;\t\t\t\t\t\t\t    "
      ++ bsS
      ++ "\n\t\t\t\t\t\t\t\t    "
      ++ bsS
      ++ "\n"
      ++ String.join (op.array_args.map (fun a =>
          "    ARRAY_FINI("
          ++ a.name
          ++ ");\t\t\t\t\t    "
          ++ bsS
          ++ "\n"))
      ++ "    FUNC_FINI;\t\t\t\t\t\t\t    "
      ++ bsS
      ++ "\n\t\t\t\t\t\t\t\t    "
      ++ bsS
      ++ "\n    return GA_NO_ERROR;\t\t\t\t\t\t    "
      ++ bsS
      ++ "\n  \x7d\n\n"
      ++ String.join (op.types.map (fun t =>
          (upperS op.name)
          ++ "("
          ++ t.name
          ++ ", "
          ++ t.c
          ++ ", "
          ++ (upperS t.c)
          ++ ")\n"))))
  ++ "\nGPUARRAY_LOCAL gpuarray_blas_ops __GLUE(NAME, _ops) = \x7b\n  setup,\n  teardown,\n"
  ++ String.join (ops.map (fun op =>
      String.join (op.types.map (fun t =>
          "  "
          ++ t.c
          ++ op.name
          ++ ",\n"))))
  ++ "  sgemmBatch,\n  dgemmBatch,\n\x7d;\n"

/-- Render of the dispatch-table header (gpuarray/buffer_blas.h), transliterated line by line
from the corresponding template of the generator. -/
def renderBufferBlas (ops : List BlasOpD) : String :=
  "\n/* This file is generated by gen_blas.py in the root of the distribution */\n#ifndef GPUARRAY_BUFFER_BLAS_H\n#define GPUARRAY_BUFFER_BLAS_H\n\n#include <gpuarray/buffer.h>\n#include <gpuarray/config.h>\n\n#ifdef __cplusplus\nextern \"C\" \x7b\n#endif\n\ntypedef enum _cb_order \x7b\n  cb_row,\n  cb_column\n\x7d cb_order;\n\n#define cb_c cb_row\n#define cb_fortran cb_column\n\ntypedef enum _cb_side \x7b\n  cb_left,\n  cb_right\n\x7d cb_side;\n\ntypedef enum _cb_transpose \x7b\n  cb_no_trans,\n  cb_trans,\n  cb_conj_trans\n\x7d cb_transpose;\n\ntypedef enum _cb_uplo \x7b\n  cb_upper,\n  cb_lower\n\x7d cb_uplo;\n\ntypedef struct _gpuarray_blas_ops \x7b\n  int (*setup)(void *ctx);\n  void (*teardown)(void *ctx);\n"
  ++ String.join (ops.map (fun op =>
      String.join (op.types.map (fun t =>
          "  int (*"
          ++ t.c
          ++ op.name
          ++ ")("
          ++ (op.format_arguments t.name)
          ++ ");\n"))))
  ++ "  int (*sgemmBatch)(cb_order order, cb_transpose transA, cb_transpose transB, size_t M, size_t N, size_t K, float alpha, gpudata **A, size_t *offA, size_t lda, gpudata **B, size_t *offB, size_t ldb, float beta, gpudata **C, size_t *offC, size_t ldc, size_t batchCount);\n  int (*dgemmBatch)(cb_order order, cb_transpose transA, cb_transpose transB, size_t M, size_t N, size_t K, double alpha, gpudata **A, size_t *offA, size_t lda, gpudata **B, size_t *offB, size_t ldb, double beta, gpudata **C, size_t *offC, size_t ldc, size_t batchCount);\n\x7d gpuarray_blas_ops;\n\n#ifdef __cplusplus\n\x7d\n#endif\n\n#endif\n"

/-- Render of the simplified-surface header (gpuarray/blas.h), transliterated line by line
from the corresponding template of the generator. -/
def renderBlas (ops : List BlasOpD) : String :=
  "\n/* This file is generated by gen_blas.py in the root of the distribution */\n#ifndef GPUARRAY_BLAS_H\n#define GPUARRAY_BLAS_H\n\n#include <gpuarray/buffer_blas.h>\n#include <gpuarray/array.h>\n\n#ifdef __cplusplus\nextern \"C\" \x7b\n#endif\n\n"
  ++ String.join (ops.map (fun op =>
      "GPUARRAY_PUBLIC int GpuArray_r"
      ++ op.name
      ++ "("
      ++ (op.format_simple_args "double" "GpuArray *")
      ++ ",\n                                        int nocopy);\n"
      ++ String.join (op.types.map (fun t =>
          "#define GpuArray_"
          ++ t.c
          ++ op.name
          ++ " GpuArray_r"
          ++ op.name
          ++ "\n"))))
  ++ "\n#ifdef __cplusplus\n\x7d\n#endif\n\n#endif\n"

/-- The per-operation block of the simplified-surface implementation
template (the body of its op loop), transliterated line by line. -/
def arrayBlasOpBlock (op : BlasOpD) : String :=
  "int GpuArray_r"
  ++ op.name
  ++ "("
  ++ (op.format_simple_args "double" "GpuArray *")
  ++ ",\n                         int nocopy) \x7b\n"
  ++ String.join (op.array_args.map (fun a =>
      "  GpuArray *"
      ++ a.name
      ++ "p = "
      ++ a.name
      ++ ";\n"
      ++ (if !a.isoutput then
          "  GpuArray copy"
          ++ a.name
          ++ ";\n"
        else "")))
  ++ "  gpuarray_blas_ops *blas;\n  void *ctx;\n  size_t elsize;\n  size_t "
  ++ (String.intercalate ", " (op.size_args.map (fun a => lowerS a.name)))
  ++ ";\n  cb_order o;\n  int err;\n\n\n  if ("
  ++ op.firsta
  ++ "->typecode != GA_FLOAT && "
  ++ op.firsta
  ++ "->typecode != GA_DOUBLE)\n    return GA_INVALID_ERROR;\n\n\n  if ("
  ++ (String.intercalate "||" (op.array_args.map ndcond))
  ++ " ||\n      "
  ++ (String.intercalate "||" (op.array_args.map (typecond op.firsta)))
  ++ ")\n    return GA_VALUE_ERROR;\n\n  if ("
  ++ (String.intercalate "||" (op.array_args.map aligncond))
  ++ ")\n    return GA_UNALIGNED_ERROR;\n\n  "
  ++ op.check_dims
  ++ "\n\n  elsize = gpuarray_get_elsize("
  ++ op.firsta
  ++ "->typecode);\n\n"
  ++ String.join (op.array_args.map (fun a =>
      (if a.ismatrix then
          "  if (!GpuArray_ISONESEGMENT("
          ++ a.name
          ++ ")) \x7b\n"
          ++ (if a.isoutput then
              "    err = GA_VALUE_ERROR;\n    goto cleanup;\n"
            else "    if (nocopy)\n      return GA_COPY_ERROR;\n    else \x7b\n      err = GpuArray_copy(&copy"
              ++ a.name
              ++ ", "
              ++ a.name
              ++ ", GA_F_ORDER);\n      if (err != GA_NO_ERROR)\n\tgoto cleanup;\n      "
              ++ a.name
              ++ "p = &copy"
              ++ a.name
              ++ ";\n    \x7d\n")
          ++ "  \x7d\n"
        else "  if ("
          ++ a.name
          ++ "->strides[0] < 0) \x7b\n"
          ++ (if a.isoutput then
              "    err = GA_VALUE_ERROR;\n    goto cleanup;\n"
            else "    if (nocopy)\n      return GA_COPY_ERROR;\n    else \x7b\n      err = GpuArray_copy(&copy"
              ++ a.name
              ++ ", "
              ++ a.name
              ++ ", GA_ANY_ORDER);\n      if (err != GA_NO_ERROR)\n\tgoto cleanup;\n      "
              ++ a.name
              ++ "p = &copy"
              ++ a.name
              ++ ";\n    \x7d\n")
          ++ "  \x7d\n")))
  ++ "\n  "
  ++ op.setup_order
  ++ "\n\n  err = "
  ++ op.firsta
  ++ "p->ops->property(NULL, "
  ++ op.firsta
  ++ "p->data, NULL, GA_BUFFER_PROP_CTX, &ctx);\n  if (err != GA_NO_ERROR)\n    goto cleanup;\n  err = "
  ++ op.firsta
  ++ "p->ops->property(ctx, NULL, NULL, GA_CTX_PROP_BLAS_OPS, &blas);\n  if (err != GA_NO_ERROR)\n    goto cleanup;\n\n  err = blas->setup(ctx);\n  if (err != GA_NO_ERROR)\n    goto cleanup;\n\n  if ("
  ++ op.firsta
  ++ "p->typecode == GA_FLOAT)\n    err = blas->s"
  ++ op.name
  ++ "(o, "
  ++ (op.format_blas_args "float")
  ++ ");\n  else\n    err = blas->d"
  ++ op.name
  ++ "(o, "
  ++ (op.format_blas_args "double")
  ++ ");\n\n cleanup:\n"
  ++ String.join (op.array_args.map (fun a =>
      (if !a.isoutput then
          "  if ("
          ++ a.name
          ++ "p == &copy"
          ++ a.name
          ++ ")\n    GpuArray_clear(&copy"
          ++ a.name
          ++ ");\n"
        else "")))
  ++ "  return err;\n\x7d\n"

/-- Render of the simplified-surface implementation (gpuarray_array_blas.c): the fixed header followed
by the per-operation blocks. -/
def renderArrayBlas (ops : List BlasOpD) : String :=
  "\n/* This file is generated by gen_blas.py in the root of the distribution */\n#include \"gpuarray/blas.h\"\n#include \"gpuarray/buffer_blas.h\"\n#include \"gpuarray/types.h\"\n#include \"gpuarray/util.h\"\n#include \"gpuarray/error.h\"\n\n"
  ++ String.join (ops.map arrayBlasOpBlock)

/-- Render of the Cython binding (pygpu/blas.pyx), transliterated line by line
from the corresponding template of the generator. -/
def renderBlasPyx (ops : List BlasOpD) : String :=
  "\n# This file is generated by gen_blas.py in the root of the distribution\nfrom pygpu.gpuarray import GpuArrayException\nfrom pygpu.gpuarray cimport (_GpuArray, GpuArray, GA_NO_ERROR, GpuArray_error,\n                             pygpu_copy, pygpu_empty, pygpu_zeros,\n                             GA_ANY_ORDER, GA_F_ORDER, GpuArray_ISONESEGMENT)\n\ncdef extern from \"gpuarray/buffer_blas.h\":\n    ctypedef enum cb_transpose:\n        cb_no_trans,\n        cb_trans,\n        cb_conj_trans\n\ncdef extern from \"gpuarray/blas.h\":\n"
  ++ String.join (ops.map (fun op =>
      "    int GpuArray_r"
      ++ op.name
      ++ "("
      ++ (op.format_simple_args "double" "_GpuArray *")
      ++ ",\n                             int nocopy)\n"))
  ++ "\n"
  ++ String.join (ops.map (fun op =>
      "cdef api int pygpu_blas_r"
      ++ op.name
      ++ "("
      ++ (op.format_simple_args "double" "GpuArray ")
      ++ ",\n                      bint nocopy) except -1:\n    cdef int err\n    err = GpuArray_r"
      ++ op.name
      ++ "("
      ++ (op.format_simple_callP "&" ".ga")
      ++ ", nocopy);\n    if err != GA_NO_ERROR:\n        raise GpuArrayException(GpuArray_error(&"
      ++ op.firsta
      ++ ".ga, err), err)\n    return 0\n\n"))
  ++ "\n"
  ++ String.join (ops.map (fun op =>
      "def "
      ++ op.name
      ++ "("
      ++ op.format_pyargs
      ++ "):\n"
      ++ String.join (op.matrix_args.map (fun m =>
          (if !m.isoutput then
              "    cdef cb_transpose trans"
              ++ m.name
              ++ "\n"
            else "")))
      ++ "    "
      ++ op.py_decls
      ++ "\n\n"
      ++ String.join (op.matrix_args.map (fun m =>
          (if !m.isoutput then
              "    if trans_"
              ++ (lowerS m.name)
              ++ ":\n        trans"
              ++ m.name
              ++ " = cb_trans\n    else:\n        trans"
              ++ m.name
              ++ " = cb_no_trans\n"
            else "")))
      ++ "\n    "
      ++ op.py_ensure_output
      ++ "\n\n"
      ++ String.join (op.array_args.map (fun a =>
          (if a.isoutput then
              "    if not overwrite_"
              ++ (lowerS a.name)
              ++ ":\n        "
              ++ a.name
              ++ " = pygpu_copy("
              ++ a.name
              ++ ", GA_ANY_ORDER)\n"
            else "")))
      ++ "    pygpu_blas_r"
      ++ op.name
      ++ "("
      ++ (op.format_simple_callP "" "")
      ++ ", 0)\n\n    return "
      ++ op.outa
      ++ "\n\n"))

/-- Split a character list into its lines at newline characters. -/
def splitLinesC : List Char → List Char → List (List Char)
  | [], acc => [acc.reverse]
  | c :: cs, acc =>
    if c = '\n' then acc.reverse :: splitLinesC cs []
    else splitLinesC cs (c :: acc)

/-- Split a character list at a separator character (the separator is
dropped). -/
def splitCharC (sep : Char) : List Char → List Char → List (List Char)
  | [], acc => [acc.reverse]
  | c :: cs, acc =>
    if c = sep then acc.reverse :: splitCharC sep cs []
    else splitCharC sep cs (c :: acc)

/-- Character-list prefix test. -/
def isPreC : List Char → List Char → Bool
  | [], _ => true
  | _ :: _, [] => false
  | p :: ps, c :: cs => p = c && isPreC ps cs

/-- The suffix following the first occurrence of a marker (empty when
the marker does not occur). -/
def afterMarker (m : List Char) : List Char → List Char
  | [] => []
  | c :: cs =>
    if isPreC m (c :: cs) then List.drop m.length (c :: cs)
    else afterMarker m cs

/-- The prefix preceding the first occurrence of a marker. -/
def uptoMarker (m : List Char) : List Char → List Char
  | [] => []
  | c :: cs =>
    if isPreC m (c :: cs) then [] else c :: uptoMarker m cs

/-- Number of (possibly overlapping) occurrences of a marker,
accumulator form. -/
def countOccurAux (m : List Char) : List Char → Nat → Nat
  | [], acc => acc
  | c :: cs, acc =>
    countOccurAux m cs (if isPreC m (c :: cs) then acc + 1 else acc)

/-- Number of (possibly overlapping) occurrences of a marker. -/
def countOccurC (m s : List Char) : Nat := countOccurAux m s 0

/-- Whether a marker occurs as a substring. -/
def containsC (m : List Char) (s : List Char) : Bool :=
  countOccurC m s ≠ 0

/-- Strip leading and trailing spaces from a character list. -/
def trimSpacesC (l : List Char) : List Char :=
  ((l.dropWhile (fun c => c = ' ')).reverse.dropWhile (fun c => c = ' ')).reverse

/-- The last space-separated token of a character list. -/
def lastTokC (l : List Char) : List Char :=
  (l.reverse.takeWhile (fun c => c ≠ ' ')).reverse

/-- The parameter names declared by a C parameter list: split at commas,
take the last token of each fragment, strip pointer stars. -/
def paramNamesC (s : List Char) : List (List Char) :=
  (splitCharC ',' s []).map
    (fun f => (lastTokC (trimSpacesC f)).dropWhile (fun c => c = '*'))

/-- The argument names mentioned by a rendered call: the identifier
directly after each opening parenthesis. -/
def callNamesC (s : List Char) : List (List Char) :=
  ((splitCharC '(' s []).drop 1).map
    (fun t => t.takeWhile (fun c => c ≠ ',' && c ≠ ')'))

/-- The C parameter list of the low-level native declaration of an op,
cut out of the rendered backend template after `typec ## <name>(`. -/
def nativeDeclParamsC (op : BlasOpD) : List Char :=
  (afterMarker ("typec ## " ++ op.name ++ "(").data
    (renderGeneric OPS).data).takeWhile (fun c => c ≠ ')')

/-- The rendered backend-forwarding call arguments of an op, cut out of
the backend template between `<name>)(INIT_ARGS ` and ` TRAIL_ARGS`. -/
def callStrC (op : BlasOpD) : List Char :=
  uptoMarker " TRAIL_ARGS".data
    (afterMarker (", " ++ op.name ++ ")(INIT_ARGS ").data
      (renderGeneric OPS).data)

/-- The C parameter list of the dispatch-table entry of an (op, type)
pair, cut out of the rendered dispatch-table header after
`int (*<letter><name>)(`. -/
def tableEntryParamsC (op : BlasOpD) (t : DtypeD) : List Char :=
  (afterMarker ("int (*" ++ t.c ++ op.name ++ ")(").data
    (renderBufferBlas OPS).data).takeWhile (fun c => c ≠ ')')

/-- The expected parameter-name sequence for an op: `order` first when
the op involves a matrix, then, following the descriptor's argument
list in order, the argument name (arrays contribute their data pointer
name and their `off<name>` offset). -/
def expectedParamNames (op : BlasOpD) : List (List Char) :=
  (if op.has_order then ["order".data] else []) ++
    op.arguments.flatMap
      (fun a =>
        if a.isarray then [a.name.data, ("off" ++ a.name).data]
        else [a.name.data])

/-- The function-pointer names of the rendered dispatch-table header, in
order. -/
def bufferTableSymsC (s : List Char) : List (List Char) :=
  (splitLinesC s []).filterMap
    (fun l =>
      if isPreC "  int (*".data l then
        some ((l.drop 8).takeWhile (fun c => c ≠ ')'))
      else none)

/-- The entries of the rendered backend dispatch table
(`__GLUE(NAME, _ops)`): the lines between `teardown,` and
`sgemmBatch,`, stripped of indentation and the trailing comma. -/
def genericTableSymsC (s : List Char) : List (List Char) :=
  ((((splitLinesC s []).dropWhile
      (fun l => !(l == "  teardown,".data))).drop 1).takeWhile
    (fun l => !(l == "  sgemmBatch,".data))).map
    (fun l => (l.drop 2).dropLast)

/-- The declared symbols of the rendered simplified-surface header: the
identifier after each `GPUARRAY_PUBLIC int `. -/
def blasHeaderDeclSymsC (s : List Char) : List (List Char) :=
  (splitLinesC s []).filterMap
    (fun l =>
      if isPreC "GPUARRAY_PUBLIC int ".data l then
        some ((l.drop 20).takeWhile (fun c => c ≠ '('))
      else none)

/-- The alias lines of the rendered simplified-surface header: each
`#define GpuArray_...` line split into its tokens. -/
def blasHeaderAliasesC (s : List Char) : List (List (List Char)) :=
  (splitLinesC s []).filterMap
    (fun l =>
      if isPreC "#define GpuArray_".data l then some (splitCharC ' ' l [])
      else none)

/-- The `def` names of the rendered Cython binding. -/
def pyxDefNamesC (s : List Char) : List (List Char) :=
  (splitLinesC s []).filterMap
    (fun l =>
      if isPreC "def ".data l then
        some ((l.drop 4).takeWhile (fun c => c ≠ '('))
      else none)

/-- The `cdef api int` wrapper names of the rendered Cython binding. -/
def pyxWrapperNamesC (s : List Char) : List (List Char) :=
  (splitLinesC s []).filterMap
    (fun l =>
      if isPreC "cdef api int ".data l then
        some ((l.drop 13).takeWhile (fun c => c ≠ '('))
      else none)

/-- A file system: a map from path to optional content. -/
def FSMap := String → Option String

/-- Writing a file: `open(path, 'w')` semantics, replacing any previous
content. -/
def fsWrite (fs : FSMap) (p c : String) : FSMap :=
  fun q => if q = p then some c else fs q

/-- One run of the generator: render the five artifacts from `OPS` and
write them to their five paths, in the order of the source. -/
def runGen (fs : FSMap) : FSMap :=
  fsWrite (fsWrite (fsWrite (fsWrite (fsWrite fs
    "src/generic_blas.inc.c" (renderGeneric OPS))
    "src/gpuarray/buffer_blas.h" (renderBufferBlas OPS))
    "src/gpuarray/blas.h" (renderBlas OPS))
    "src/gpuarray_array_blas.c" (renderArrayBlas OPS))
    "pygpu/blas.pyx" (renderBlasPyx OPS)

/-- The fallback-and-tail part of the generated `GpuArray_rgemv` equals
the spec-shaped fallback step followed by the shared tail, with a
uniform cleanup. -/
theorem gemv_tail_eq (env : Env) (transA : CbTrans) (alpha : Rat)
    (A X : GpuArray) (beta : Rat) (Y : GpuArray) (nocopy : Bool)
    (els : Nat) :
    (if ¬A.oneSegment then
       if nocopy then (⟨GAErr.copyError, none, [], []⟩ : Res GemvCall)
       else
         match env.copyFn A CopyOrd.fOrder with
         | Except.error e => ⟨e, none, [], []⟩
         | Except.ok A2 => rgemvFromX env transA alpha A X beta Y nocopy A2 els ["A"]
     else rgemvFromX env transA alpha A X beta Y nocopy A els []) =
    (match gemvFallbackStep env nocopy A X Y with
     | Except.error (e, al) => ⟨e, none, al, al⟩
     | Except.ok (Ap, Xp, al) =>
       rgemvFinish env transA alpha A beta Y Ap Xp els al) := by
  simp only [gemvFallbackStep, rgemvFromX]
  split_ifs <;> try rfl
  all_goals simp_all [Except.bind, rgemvFinish]
  all_goals (split <;> simp_all [rgemvFinish])
  all_goals (split <;> simp_all [rgemvFinish])

/-- The fallback-and-tail part of the generated `GpuArray_rgemm` equals
the spec-shaped fallback step followed by the shared tail, with a
uniform cleanup. -/
theorem gemm_tail_eq (env : Env) (transA transB : CbTrans) (alpha : Rat)
    (A B : GpuArray) (beta : Rat) (C : GpuArray) (nocopy : Bool)
    (els : Nat) :
    (if ¬A.oneSegment then
       if nocopy then (⟨GAErr.copyError, none, [], []⟩ : Res GemmCall)
       else
         match env.copyFn A CopyOrd.fOrder with
         | Except.error e => ⟨e, none, [], []⟩
         | Except.ok A2 =>
           rgemmFromB env transA transB alpha A B beta C nocopy A2 els ["A"]
     else rgemmFromB env transA transB alpha A B beta C nocopy A els []) =
    (match gemmFallbackStep env nocopy A B C with
     | Except.error (e, al) => ⟨e, none, al, al⟩
     | Except.ok (Ap, Bp, al) =>
       rgemmFinish env transA transB alpha A B beta C Ap Bp els al) := by
  simp only [gemmFallbackStep, rgemmFromB]
  split_ifs <;> try rfl
  all_goals simp_all [Except.bind, rgemmFinish]
  all_goals (split <;> simp_all [rgemmFinish])
  all_goals (split <;> simp_all [rgemmFinish])

/-- The fallback-and-tail part of the generated `GpuArray_rger` equals
the spec-shaped fallback step followed by the shared tail, with a
uniform cleanup. -/
theorem ger_tail_eq (env : Env) (alpha : Rat) (X Y A : GpuArray)
    (nocopy : Bool) (els : Nat) :
    (if X.stride0 < 0 then
       if nocopy then (⟨GAErr.copyError, none, [], []⟩ : Res GerCall)
       else
         match env.copyFn X CopyOrd.anyOrder with
         | Except.error e => ⟨e, none, [], []⟩
         | Except.ok X2 => rgerFromY env alpha X Y A nocopy X2 els ["X"]
     else rgerFromY env alpha X Y A nocopy X els []) =
    (match gerFallbackStep env nocopy X Y A with
     | Except.error (e, al) => ⟨e, none, al, al⟩
     | Except.ok (Xp, Yp, al) => rgerFinish env alpha X Y A Xp Yp els al) := by
  simp only [gerFallbackStep, rgerFromY]
  split_ifs <;> try rfl
  all_goals simp_all [Except.bind, rgerFinish]
  all_goals (split <;> simp_all [rgerFinish])
  all_goals (split <;> simp_all [rgerFinish])

/-- `GpuArray_rgemv` runs the spec pipeline with the dimension check
placed before the contiguity fallback. -/
theorem gemv_order_eq (env : Env) (transA : CbTrans) (alpha : Rat)
    (A X : GpuArray) (beta : Rat) (Y : GpuArray) (nocopy : Bool) :
    GpuArray_rgemv env transA alpha A X beta Y nocopy =
      gemvPipeline true env transA alpha A X beta Y nocopy := by
  simp only [GpuArray_rgemv, gemvPipeline, eq_self_iff_true, not_true,
    false_and, if_false, true_and, ne_eq]
  rw [gemv_tail_eq]
  split_ifs <;> simp_all

/-- `GpuArray_rgemm` runs the spec pipeline with the dimension check
placed before the contiguity fallback. -/
theorem gemm_order_eq (env : Env) (transA transB : CbTrans) (alpha : Rat)
    (A B : GpuArray) (beta : Rat) (C : GpuArray) (nocopy : Bool) :
    GpuArray_rgemm env transA transB alpha A B beta C nocopy =
      gemmPipeline true env transA transB alpha A B beta C nocopy := by
  simp only [GpuArray_rgemm, gemmPipeline, eq_self_iff_true, not_true,
    false_and, if_false, true_and, ne_eq]
  rw [gemm_tail_eq]
  split_ifs <;> simp_all

/-- `GpuArray_rger` runs the spec pipeline with the dimension check
placed before the contiguity fallback. -/
theorem ger_order_eq (env : Env) (alpha : Rat) (X Y A : GpuArray)
    (nocopy : Bool) :
    GpuArray_rger env alpha X Y A nocopy =
      gerPipeline true env alpha X Y A nocopy := by
  simp only [GpuArray_rger, gerPipeline, eq_self_iff_true, not_true,
    false_and, if_false, true_and, ne_eq]
  rw [ger_tail_eq]
  split_ifs <;> simp_all

/-- C1: the generated pipeline does NOT run the claimed order — the
operation-specific dimension check happens before the contiguity
fallback, not after it.  Concretely, for a `gemv` call whose matrix `A`
is both non-contiguous and dimension-mismatched against `X`, with
copying disabled, the generated code returns the dimension error
(`GA_VALUE_ERROR`) while a pipeline running the claimed order would
return `GA_COPY_ERROR` from the fallback step. -/
theorem c1_counterexample :
    (GpuArray_rgemv env0 CbTrans.noTrans 1 matA23gap (vecF 5 3) 0
        (vecF 2 4) true).err = GAErr.valueError ∧
    (gemvPipeline false env0 CbTrans.noTrans 1 matA23gap (vecF 5 3) 0
        (vecF 2 4) true).err = GAErr.copyError ∧
    GpuArray_rgemv env0 CbTrans.noTrans 1 matA23gap (vecF 5 3) 0
        (vecF 2 4) true ≠
      gemvPipeline false env0 CbTrans.noTrans 1 matA23gap (vecF 5 3) 0
        (vecF 2 4) true := by
  refine ⟨rfl, rfl, ?_⟩
  decide

/-- C1 (amended): for every call into the simplified public surface
(any of the three generated `GpuArray_r` functions), the validation
pipeline runs as a single deterministic pass in the order: type
agreement, rank check, alignment check, operation-specific dimension
check (performed on the original arrays' shapes, before any fallback
copy exists), contiguity fallback, storage-order setup (on the possibly
post-copy arrays), backend invocation; the error of the first failing
step is returned with no retry. -/
theorem c1_pipeline_order :
    (∀ env transA alpha A X beta Y nocopy,
      GpuArray_rgemv env transA alpha A X beta Y nocopy =
        gemvPipeline true env transA alpha A X beta Y nocopy) ∧
    (∀ env transA transB alpha A B beta C nocopy,
      GpuArray_rgemm env transA transB alpha A B beta C nocopy =
        gemmPipeline true env transA transB alpha A B beta C nocopy) ∧
    (∀ env alpha X Y A nocopy,
      GpuArray_rger env alpha X Y A nocopy =
        gerPipeline true env alpha X Y A nocopy) :=
  ⟨gemv_order_eq, gemm_order_eq, ger_order_eq⟩

/-- In the tail shared by code and spec pipelines for `gemv`, the
cleanup block releases exactly the allocated copies. -/
theorem rgemvFinish_fa (env : Env) (transA : CbTrans) (alpha : Rat)
    (A : GpuArray) (beta : Rat) (Y Ap Xp : GpuArray) (els : Nat)
    (al : List String) :
    (rgemvFinish env transA alpha A beta Y Ap Xp els al).freed =
      (rgemvFinish env transA alpha A beta Y Ap Xp els al).allocated := by
  unfold rgemvFinish
  repeat' split
  all_goals rfl

/-- In the tail shared by code and spec pipelines for `gemm`, the
cleanup block releases exactly the allocated copies. -/
theorem rgemmFinish_fa (env : Env) (transA transB : CbTrans) (alpha : Rat)
    (A B : GpuArray) (beta : Rat) (C Ap Bp : GpuArray) (els : Nat)
    (al : List String) :
    (rgemmFinish env transA transB alpha A B beta C Ap Bp els al).freed =
      (rgemmFinish env transA transB alpha A B beta C Ap Bp els al).allocated := by
  unfold rgemmFinish
  repeat' split
  all_goals rfl

/-- In the tail shared by code and spec pipelines for `ger`, the
cleanup block releases exactly the allocated copies. -/
theorem rgerFinish_fa (env : Env) (alpha : Rat) (X Y A Xp Yp : GpuArray)
    (els : Nat) (al : List String) :
    (rgerFinish env alpha X Y A Xp Yp els al).freed =
      (rgerFinish env alpha X Y A Xp Yp els al).allocated := by
  unfold rgerFinish
  repeat' split
  all_goals rfl

/-- Every result of the `gemv` pipeline releases exactly what it
allocated. -/
theorem gemvPipeline_fa (df : Bool) (env : Env) (transA : CbTrans)
    (alpha : Rat) (A X : GpuArray) (beta : Rat) (Y : GpuArray)
    (nocopy : Bool) :
    (gemvPipeline df env transA alpha A X beta Y nocopy).freed =
      (gemvPipeline df env transA alpha A X beta Y nocopy).allocated := by
  unfold gemvPipeline
  repeat' split
  all_goals first | rfl | apply rgemvFinish_fa

/-- Every result of the `gemm` pipeline releases exactly what it
allocated. -/
theorem gemmPipeline_fa (df : Bool) (env : Env) (transA transB : CbTrans)
    (alpha : Rat) (A B : GpuArray) (beta : Rat) (C : GpuArray)
    (nocopy : Bool) :
    (gemmPipeline df env transA transB alpha A B beta C nocopy).freed =
      (gemmPipeline df env transA transB alpha A B beta C nocopy).allocated := by
  unfold gemmPipeline
  repeat' split
  all_goals first | rfl | apply rgemmFinish_fa

/-- Every result of the `ger` pipeline releases exactly what it
allocated. -/
theorem gerPipeline_fa (df : Bool) (env : Env) (alpha : Rat)
    (X Y A : GpuArray) (nocopy : Bool) :
    (gerPipeline df env alpha X Y A nocopy).freed =
      (gerPipeline df env alpha X Y A nocopy).allocated := by
  unfold gerPipeline
  repeat' split
  all_goals first | rfl | apply rgerFinish_fa

/-- C2: for every call into the simplified surface and every exit path
(success, backend error, or any validation error), every fallback copy
allocated in the contiguity-fallback step is released before the call
returns — the list of released copies equals the list of allocated
copies, so a failed call never leaks the temporary copy buffer and no
copy is reachable after return. -/
theorem c2_copies_released :
    (∀ env transA alpha A X beta Y nocopy,
      (GpuArray_rgemv env transA alpha A X beta Y nocopy).freed =
        (GpuArray_rgemv env transA alpha A X beta Y nocopy).allocated) ∧
    (∀ env transA transB alpha A B beta C nocopy,
      (GpuArray_rgemm env transA transB alpha A B beta C nocopy).freed =
        (GpuArray_rgemm env transA transB alpha A B beta C nocopy).allocated) ∧
    (∀ env alpha X Y A nocopy,
      (GpuArray_rger env alpha X Y A nocopy).freed =
        (GpuArray_rger env alpha X Y A nocopy).allocated) :=
  ⟨fun env transA alpha A X beta Y nocopy => by
      rw [gemv_order_eq]; exact gemvPipeline_fa true env transA alpha A X beta Y nocopy,
    fun env transA transB alpha A B beta C nocopy => by
      rw [gemm_order_eq]; exact gemmPipeline_fa true env transA transB alpha A B beta C nocopy,
    fun env alpha X Y A nocopy => by
      rw [ger_order_eq]; exact gerPipeline_fa true env alpha X Y A nocopy⟩

/-- Whatever happens after the `X` fallback of `gemv`, the backend call
(if one is reached) receives the buffer of the array the pipeline was
handed as `Ap`. -/
theorem rgemvFromX_call (env : Env) (transA : CbTrans) (alpha : Rat)
    (A X : GpuArray) (beta : Rat) (Y : GpuArray) (nc : Bool)
    (Ap : GpuArray) (els : Nat) (al : List String) (c : GemvCall) :
    (rgemvFromX env transA alpha A X beta Y nc Ap els al).call = some c →
      c.aData = Ap.data := by
  unfold rgemvFromX rgemvFinish
  repeat' split
  all_goals intro h
  all_goals (try (cases h))
  all_goals rfl

/-- The `X` fallback of `gemv` can only extend the allocation list by
the `X` copy. -/
theorem rgemvFromX_allocated (env : Env) (transA : CbTrans) (alpha : Rat)
    (A X : GpuArray) (beta : Rat) (Y : GpuArray) (nc : Bool)
    (Ap : GpuArray) (els : Nat) (al : List String) :
    (rgemvFromX env transA alpha A X beta Y nc Ap els al).allocated = al ∨
    (rgemvFromX env transA alpha A X beta Y nc Ap els al).allocated =
      al ++ ["X"] := by
  unfold rgemvFromX rgemvFinish
  repeat' split
  all_goals simp

/-- The tail of `gemv` never allocates further copies. -/
theorem rgemvFinish_allocated (env : Env) (transA : CbTrans) (alpha : Rat)
    (A : GpuArray) (beta : Rat) (Y Ap Xp : GpuArray) (els : Nat)
    (al : List String) :
    (rgemvFinish env transA alpha A beta Y Ap Xp els al).allocated = al := by
  unfold rgemvFinish
  repeat' split
  all_goals rfl

/-- Elimination principle for the allocation list from the `X` fallback
of `gemv` on. -/
theorem rgemvFromX_allocated_elim (P : List String → Prop) (env : Env)
    (transA : CbTrans) (alpha : Rat) (A X : GpuArray) (beta : Rat)
    (Y : GpuArray) (nc : Bool) (Ap : GpuArray) (els : Nat)
    (al : List String) (h1 : P al) (h2 : P (al ++ ["X"])) :
    P ((rgemvFromX env transA alpha A X beta Y nc Ap els al).allocated) := by
  unfold rgemvFromX
  repeat' split
  all_goals simp [rgemvFinish_allocated, h1, h2]

/-- The allocation list of a `gemv` call names at most the two input
arrays. -/
theorem rgemv_allocated_cases (env : Env) (transA : CbTrans) (alpha : Rat)
    (A X : GpuArray) (beta : Rat) (Y : GpuArray) (nocopy : Bool) :
    (GpuArray_rgemv env transA alpha A X beta Y nocopy).allocated = [] ∨
    (GpuArray_rgemv env transA alpha A X beta Y nocopy).allocated = ["A"] ∨
    (GpuArray_rgemv env transA alpha A X beta Y nocopy).allocated = ["X"] ∨
    (GpuArray_rgemv env transA alpha A X beta Y nocopy).allocated =
      ["A", "X"] := by
  unfold GpuArray_rgemv
  repeat' split
  all_goals try simp
  all_goals (refine rgemvFromX_allocated_elim (fun l => l = [] ∨ l = ["A"] ∨ l = ["X"] ∨ l = ["A", "X"]) _ _ _ _ _ _ _ _ _ _ _ ?_ ?_ <;> simp)

/-- The tail of `gemm` never allocates further copies. -/
theorem rgemmFinish_allocated (env : Env) (transA transB : CbTrans)
    (alpha : Rat) (A B : GpuArray) (beta : Rat) (C Ap Bp : GpuArray)
    (els : Nat) (al : List String) :
    (rgemmFinish env transA transB alpha A B beta C Ap Bp els al).allocated =
      al := by
  unfold rgemmFinish
  repeat' split
  all_goals rfl

/-- Elimination principle for the allocation list from the `B` fallback
of `gemm` on. -/
theorem rgemmFromB_allocated_elim (P : List String → Prop) (env : Env)
    (transA transB : CbTrans) (alpha : Rat) (A B : GpuArray) (beta : Rat)
    (C : GpuArray) (nc : Bool) (Ap : GpuArray) (els : Nat)
    (al : List String) (h1 : P al) (h2 : P (al ++ ["B"])) :
    P ((rgemmFromB env transA transB alpha A B beta C nc Ap els al).allocated) := by
  unfold rgemmFromB
  repeat' split
  all_goals simp [rgemmFinish_allocated, h1, h2]

/-- The allocation list of a `gemm` call names at most the two input
matrices. -/
theorem rgemm_allocated_cases (env : Env) (transA transB : CbTrans)
    (alpha : Rat) (A B : GpuArray) (beta : Rat) (C : GpuArray)
    (nocopy : Bool) :
    (GpuArray_rgemm env transA transB alpha A B beta C nocopy).allocated = [] ∨
    (GpuArray_rgemm env transA transB alpha A B beta C nocopy).allocated = ["A"] ∨
    (GpuArray_rgemm env transA transB alpha A B beta C nocopy).allocated = ["B"] ∨
    (GpuArray_rgemm env transA transB alpha A B beta C nocopy).allocated =
      ["A", "B"] := by
  unfold GpuArray_rgemm
  repeat' split
  all_goals try simp
  all_goals (refine rgemmFromB_allocated_elim (fun l => l = [] ∨ l = ["A"] ∨ l = ["B"] ∨ l = ["A", "B"]) _ _ _ _ _ _ _ _ _ _ _ _ ?_ ?_ <;> simp)

/-- The tail of `ger` never allocates further copies. -/
theorem rgerFinish_allocated (env : Env) (alpha : Rat) (X Y A Xp Yp : GpuArray)
    (els : Nat) (al : List String) :
    (rgerFinish env alpha X Y A Xp Yp els al).allocated = al := by
  unfold rgerFinish
  repeat' split
  all_goals rfl

/-- Elimination principle for the allocation list from the `Y` fallback
of `ger` on. -/
theorem rgerFromY_allocated_elim (P : List String → Prop) (env : Env)
    (alpha : Rat) (X Y A : GpuArray) (nc : Bool) (Xp : GpuArray)
    (els : Nat) (al : List String) (h1 : P al) (h2 : P (al ++ ["Y"])) :
    P ((rgerFromY env alpha X Y A nc Xp els al).allocated) := by
  unfold rgerFromY
  repeat' split
  all_goals simp [rgerFinish_allocated, h1, h2]

/-- The allocation list of a `ger` call names at most the two input
vectors. -/
theorem rger_allocated_cases (env : Env) (alpha : Rat) (X Y A : GpuArray)
    (nocopy : Bool) :
    (GpuArray_rger env alpha X Y A nocopy).allocated = [] ∨
    (GpuArray_rger env alpha X Y A nocopy).allocated = ["X"] ∨
    (GpuArray_rger env alpha X Y A nocopy).allocated = ["Y"] ∨
    (GpuArray_rger env alpha X Y A nocopy).allocated = ["X", "Y"] := by
  unfold GpuArray_rger
  repeat' split
  all_goals try simp
  all_goals (refine rgerFromY_allocated_elim (fun l => l = [] ∨ l = ["X"] ∨ l = ["Y"] ∨ l = ["X", "Y"]) _ _ _ _ _ _ _ _ _ ?_ ?_ <;> simp)

/-- Whatever happens in the `gemv` tail, the backend call (if one is
reached) receives the buffer of the array the tail was handed as
`Xp`. -/
theorem rgemvFinish_call_x (env : Env) (transA : CbTrans) (alpha : Rat)
    (A : GpuArray) (beta : Rat) (Y Ap Xp : GpuArray) (els : Nat)
    (al : List String) (c : GemvCall) :
    (rgemvFinish env transA alpha A beta Y Ap Xp els al).call = some c →
      c.xData = Xp.data := by
  unfold rgemvFinish
  repeat' split
  all_goals intro h
  all_goals (try (cases h))
  all_goals rfl

/-- Whatever happens after the `B` fallback of `gemm`, the backend call
(if one is reached) receives the buffer of the array the pipeline was
handed as `Ap`. -/
theorem rgemmFromB_call_a (env : Env) (transA transB : CbTrans)
    (alpha : Rat) (A B : GpuArray) (beta : Rat) (C : GpuArray) (nc : Bool)
    (Ap : GpuArray) (els : Nat) (al : List String) (c : GemmCall) :
    (rgemmFromB env transA transB alpha A B beta C nc Ap els al).call =
      some c → c.aData = Ap.data := by
  unfold rgemmFromB rgemmFinish
  repeat' split
  all_goals intro h
  all_goals (try (cases h))
  all_goals rfl

/-- Whatever happens in the `gemm` tail, the backend call (if one is
reached) receives the buffer of the array the tail was handed as
`Bp`. -/
theorem rgemmFinish_call_b (env : Env) (transA transB : CbTrans)
    (alpha : Rat) (A B : GpuArray) (beta : Rat) (C Ap Bp : GpuArray)
    (els : Nat) (al : List String) (c : GemmCall) :
    (rgemmFinish env transA transB alpha A B beta C Ap Bp els al).call =
      some c → c.bData = Bp.data := by
  unfold rgemmFinish
  repeat' split
  all_goals intro h
  all_goals (try (cases h))
  all_goals rfl

/-- Whatever happens after the `Y` fallback of `ger`, the backend call
(if one is reached) receives the buffer of the array the pipeline was
handed as `Xp`. -/
theorem rgerFromY_call_x (env : Env) (alpha : Rat) (X Y A : GpuArray)
    (nc : Bool) (Xp : GpuArray) (els : Nat) (al : List String)
    (c : GerCall) :
    (rgerFromY env alpha X Y A nc Xp els al).call = some c →
      c.xData = Xp.data := by
  unfold rgerFromY rgerFinish
  repeat' split
  all_goals intro h
  all_goals (try (cases h))
  all_goals rfl

/-- Whatever happens in the `ger` tail, the backend call (if one is
reached) receives the buffer of the array the tail was handed as
`Yp`. -/
theorem rgerFinish_call_y (env : Env) (alpha : Rat) (X Y A Xp Yp : GpuArray)
    (els : Nat) (al : List String) (c : GerCall) :
    (rgerFinish env alpha X Y A Xp Yp els al).call = some c →
      c.yData = Yp.data := by
  unfold rgerFinish
  repeat' split
  all_goals intro h
  all_goals (try (cases h))
  all_goals rfl

/-- C3: contiguity-fallback behaviour of the simplified surface, once
the checks that precede it (type, rank, alignment, dimensions) pass,
covering every array of every operation: each non-one-segment input
matrix (`A` of `gemv`, `A` and `B` of `gemm`) and each negative-stride
input vector (`X` of `gemv`, `X` and `Y` of `ger`) is rejected with
`GA_COPY_ERROR` and no buffer allocated when `nocopy` is set, and is
otherwise replaced by the freshly allocated copy — recorded in the
allocation list under the array's name, with any backend call receiving
the copy's buffer in that array's slot; an output array with the same
defect (`Y` of `gemv`, `C` of `gemm`, `A` of `ger`) is always rejected
with a value error, whatever `nocopy` says, and output arrays are never
copied. -/
theorem c3_contiguity_fallback :
    (∀ env transA alpha (A X : GpuArray) beta Y
        (_ : ¬(A.typecode ≠ Typecode.gaFloat ∧ A.typecode ≠ Typecode.gaDouble))
        (_ : ¬(A.nd ≠ 2 ∨ X.nd ≠ 1 ∨ Y.nd ≠ 1 ∨ A.typecode ≠ A.typecode ∨
              X.typecode ≠ A.typecode ∨ Y.typecode ≠ A.typecode))
        (_ : ¬(¬A.aligned ∨ ¬X.aligned ∨ ¬Y.aligned))
        (_ : ¬(if transA = CbTrans.noTrans then
                Y.dim 0 ≠ A.dim 0 ∨ X.dim 0 ≠ A.dim 1
              else Y.dim 0 ≠ A.dim 1 ∨ X.dim 0 ≠ A.dim 0))
        (_ : A.oneSegment = false),
      GpuArray_rgemv env transA alpha A X beta Y true =
        ⟨GAErr.copyError, none, [], []⟩) ∧
    (∀ env transA alpha (A X : GpuArray) beta Y A2
        (_ : ¬(A.typecode ≠ Typecode.gaFloat ∧ A.typecode ≠ Typecode.gaDouble))
        (_ : ¬(A.nd ≠ 2 ∨ X.nd ≠ 1 ∨ Y.nd ≠ 1 ∨ A.typecode ≠ A.typecode ∨
              X.typecode ≠ A.typecode ∨ Y.typecode ≠ A.typecode))
        (_ : ¬(¬A.aligned ∨ ¬X.aligned ∨ ¬Y.aligned))
        (_ : ¬(if transA = CbTrans.noTrans then
                Y.dim 0 ≠ A.dim 0 ∨ X.dim 0 ≠ A.dim 1
              else Y.dim 0 ≠ A.dim 1 ∨ X.dim 0 ≠ A.dim 0))
        (_ : A.oneSegment = false)
        (_ : env.copyFn A CopyOrd.fOrder = Except.ok A2),
      GpuArray_rgemv env transA alpha A X beta Y false =
          rgemvFromX env transA alpha A X beta Y false A2
            A.typecode.elsize ["A"] ∧
        "A" ∈ (GpuArray_rgemv env transA alpha A X beta Y false).allocated ∧
        (∀ c, (GpuArray_rgemv env transA alpha A X beta Y false).call =
            some c → c.aData = A2.data)) ∧
    (∀ env transA alpha (A X : GpuArray) beta Y nocopy
        (_ : ¬(A.typecode ≠ Typecode.gaFloat ∧ A.typecode ≠ Typecode.gaDouble))
        (_ : ¬(A.nd ≠ 2 ∨ X.nd ≠ 1 ∨ Y.nd ≠ 1 ∨ A.typecode ≠ A.typecode ∨
              X.typecode ≠ A.typecode ∨ Y.typecode ≠ A.typecode))
        (_ : ¬(¬A.aligned ∨ ¬X.aligned ∨ ¬Y.aligned))
        (_ : ¬(if transA = CbTrans.noTrans then
                Y.dim 0 ≠ A.dim 0 ∨ X.dim 0 ≠ A.dim 1
              else Y.dim 0 ≠ A.dim 1 ∨ X.dim 0 ≠ A.dim 0))
        (_ : A.oneSegment = true)
        (_ : ¬(X.stride0 < 0))
        (_ : Y.stride0 < 0),
      GpuArray_rgemv env transA alpha A X beta Y nocopy =
        ⟨GAErr.valueError, none, [], []⟩) ∧
    (∀ env transA alpha (A X : GpuArray) beta Y
        (_ : ¬(A.typecode ≠ Typecode.gaFloat ∧ A.typecode ≠ Typecode.gaDouble))
        (_ : ¬(A.nd ≠ 2 ∨ X.nd ≠ 1 ∨ Y.nd ≠ 1 ∨ A.typecode ≠ A.typecode ∨
              X.typecode ≠ A.typecode ∨ Y.typecode ≠ A.typecode))
        (_ : ¬(¬A.aligned ∨ ¬X.aligned ∨ ¬Y.aligned))
        (_ : ¬(if transA = CbTrans.noTrans then
                Y.dim 0 ≠ A.dim 0 ∨ X.dim 0 ≠ A.dim 1
              else Y.dim 0 ≠ A.dim 1 ∨ X.dim 0 ≠ A.dim 0))
        (_ : A.oneSegment = true)
        (_ : X.stride0 < 0),
      GpuArray_rgemv env transA alpha A X beta Y true =
        ⟨GAErr.copyError, none, [], []⟩) ∧
    (∀ env transA transB alpha (A B : GpuArray) beta C
        (_ : ¬(A.typecode ≠ Typecode.gaFloat ∧ A.typecode ≠ Typecode.gaDouble))
        (_ : ¬(A.nd ≠ 2 ∨ B.nd ≠ 2 ∨ C.nd ≠ 2 ∨ A.typecode ≠ A.typecode ∨
              B.typecode ≠ A.typecode ∨ C.typecode ≠ A.typecode))
        (_ : ¬(¬A.aligned ∨ ¬B.aligned ∨ ¬C.aligned))
        (_ : ¬(if transB = CbTrans.noTrans then
                B.dim 0 ≠ (if transA = CbTrans.noTrans then A.dim 1 else A.dim 0)
              else
                B.dim 1 ≠ (if transA = CbTrans.noTrans then A.dim 1 else A.dim 0)))
        (_ : ¬(C.dim 0 ≠ (if transA = CbTrans.noTrans then A.dim 0 else A.dim 1) ∨
              C.dim 1 ≠ (if transB = CbTrans.noTrans then B.dim 1 else B.dim 0)))
        (_ : A.oneSegment = false),
      GpuArray_rgemm env transA transB alpha A B beta C true =
        ⟨GAErr.copyError, none, [], []⟩) ∧
    (∀ env transA transB alpha (A B : GpuArray) beta C nocopy
        (_ : ¬(A.typecode ≠ Typecode.gaFloat ∧ A.typecode ≠ Typecode.gaDouble))
        (_ : ¬(A.nd ≠ 2 ∨ B.nd ≠ 2 ∨ C.nd ≠ 2 ∨ A.typecode ≠ A.typecode ∨
              B.typecode ≠ A.typecode ∨ C.typecode ≠ A.typecode))
        (_ : ¬(¬A.aligned ∨ ¬B.aligned ∨ ¬C.aligned))
        (_ : ¬(if transB = CbTrans.noTrans then
                B.dim 0 ≠ (if transA = CbTrans.noTrans then A.dim 1 else A.dim 0)
              else
                B.dim 1 ≠ (if transA = CbTrans.noTrans then A.dim 1 else A.dim 0)))
        (_ : ¬(C.dim 0 ≠ (if transA = CbTrans.noTrans then A.dim 0 else A.dim 1) ∨
              C.dim 1 ≠ (if transB = CbTrans.noTrans then B.dim 1 else B.dim 0)))
        (_ : A.oneSegment = true)
        (_ : B.oneSegment = true)
        (_ : C.oneSegment = false),
      GpuArray_rgemm env transA transB alpha A B beta C nocopy =
        ⟨GAErr.valueError, none, [], []⟩) ∧
    (∀ env alpha (X Y A : GpuArray)
        (_ : ¬(X.typecode ≠ Typecode.gaFloat ∧ X.typecode ≠ Typecode.gaDouble))
        (_ : ¬(X.nd ≠ 1 ∨ Y.nd ≠ 1 ∨ A.nd ≠ 2 ∨ X.typecode ≠ X.typecode ∨
              Y.typecode ≠ X.typecode ∨ A.typecode ≠ X.typecode))
        (_ : ¬(¬X.aligned ∨ ¬Y.aligned ∨ ¬A.aligned))
        (_ : ¬(A.dim 0 ≠ X.dim 0 ∨ A.dim 1 ≠ Y.dim 0))
        (_ : X.stride0 < 0),
      GpuArray_rger env alpha X Y A true =
        ⟨GAErr.copyError, none, [], []⟩) ∧
    (∀ env alpha (X Y A : GpuArray) X2
        (_ : ¬(X.typecode ≠ Typecode.gaFloat ∧ X.typecode ≠ Typecode.gaDouble))
        (_ : ¬(X.nd ≠ 1 ∨ Y.nd ≠ 1 ∨ A.nd ≠ 2 ∨ X.typecode ≠ X.typecode ∨
              Y.typecode ≠ X.typecode ∨ A.typecode ≠ X.typecode))
        (_ : ¬(¬X.aligned ∨ ¬Y.aligned ∨ ¬A.aligned))
        (_ : ¬(A.dim 0 ≠ X.dim 0 ∨ A.dim 1 ≠ Y.dim 0))
        (_ : X.stride0 < 0)
        (_ : env.copyFn X CopyOrd.anyOrder = Except.ok X2),
      GpuArray_rger env alpha X Y A false =
        rgerFromY env alpha X Y A false X2 X.typecode.elsize ["X"]) ∧
    (∀ env alpha (X Y A : GpuArray) nocopy
        (_ : ¬(X.typecode ≠ Typecode.gaFloat ∧ X.typecode ≠ Typecode.gaDouble))
        (_ : ¬(X.nd ≠ 1 ∨ Y.nd ≠ 1 ∨ A.nd ≠ 2 ∨ X.typecode ≠ X.typecode ∨
              Y.typecode ≠ X.typecode ∨ A.typecode ≠ X.typecode))
        (_ : ¬(¬X.aligned ∨ ¬Y.aligned ∨ ¬A.aligned))
        (_ : ¬(A.dim 0 ≠ X.dim 0 ∨ A.dim 1 ≠ Y.dim 0))
        (_ : ¬(X.stride0 < 0))
        (_ : ¬(Y.stride0 < 0))
        (_ : A.oneSegment = false),
      GpuArray_rger env alpha X Y A nocopy =
        ⟨GAErr.valueError, none, [], []⟩) ∧
    ((∀ env transA alpha (A X : GpuArray) beta Y nocopy,
        "Y" ∉ (GpuArray_rgemv env transA alpha A X beta Y nocopy).allocated) ∧
     (∀ env transA transB alpha (A B : GpuArray) beta C nocopy,
        "C" ∉ (GpuArray_rgemm env transA transB alpha A B beta C nocopy).allocated) ∧
     (∀ env alpha (X Y A : GpuArray) nocopy,
        "A" ∉ (GpuArray_rger env alpha X Y A nocopy).allocated)) ∧
    (∀ env transA alpha (A X : GpuArray) beta Y X2
        (_ : ¬(A.typecode ≠ Typecode.gaFloat ∧ A.typecode ≠ Typecode.gaDouble))
        (_ : ¬(A.nd ≠ 2 ∨ X.nd ≠ 1 ∨ Y.nd ≠ 1 ∨ A.typecode ≠ A.typecode ∨
              X.typecode ≠ A.typecode ∨ Y.typecode ≠ A.typecode))
        (_ : ¬(¬A.aligned ∨ ¬X.aligned ∨ ¬Y.aligned))
        (_ : ¬(if transA = CbTrans.noTrans then
                Y.dim 0 ≠ A.dim 0 ∨ X.dim 0 ≠ A.dim 1
              else Y.dim 0 ≠ A.dim 1 ∨ X.dim 0 ≠ A.dim 0))
        (_ : A.oneSegment = true)
        (_ : X.stride0 < 0)
        (_ : env.copyFn X CopyOrd.anyOrder = Except.ok X2),
      "X" ∈ (GpuArray_rgemv env transA alpha A X beta Y false).allocated ∧
      (∀ c, (GpuArray_rgemv env transA alpha A X beta Y false).call =
          some c → c.xData = X2.data)) ∧
    (∀ env transA transB alpha (A B : GpuArray) beta C
        (_ : ¬(A.typecode ≠ Typecode.gaFloat ∧ A.typecode ≠ Typecode.gaDouble))
        (_ : ¬(A.nd ≠ 2 ∨ B.nd ≠ 2 ∨ C.nd ≠ 2 ∨ A.typecode ≠ A.typecode ∨
              B.typecode ≠ A.typecode ∨ C.typecode ≠ A.typecode))
        (_ : ¬(¬A.aligned ∨ ¬B.aligned ∨ ¬C.aligned))
        (_ : ¬(if transB = CbTrans.noTrans then
                B.dim 0 ≠ (if transA = CbTrans.noTrans then A.dim 1 else A.dim 0)
              else
                B.dim 1 ≠ (if transA = CbTrans.noTrans then A.dim 1 else A.dim 0)))
        (_ : ¬(C.dim 0 ≠ (if transA = CbTrans.noTrans then A.dim 0 else A.dim 1) ∨
              C.dim 1 ≠ (if transB = CbTrans.noTrans then B.dim 1 else B.dim 0)))
        (_ : A.oneSegment = true)
        (_ : B.oneSegment = false),
      GpuArray_rgemm env transA transB alpha A B beta C true =
        ⟨GAErr.copyError, none, [], []⟩) ∧
    (∀ env transA transB alpha (A B : GpuArray) beta C A2
        (_ : ¬(A.typecode ≠ Typecode.gaFloat ∧ A.typecode ≠ Typecode.gaDouble))
        (_ : ¬(A.nd ≠ 2 ∨ B.nd ≠ 2 ∨ C.nd ≠ 2 ∨ A.typecode ≠ A.typecode ∨
              B.typecode ≠ A.typecode ∨ C.typecode ≠ A.typecode))
        (_ : ¬(¬A.aligned ∨ ¬B.aligned ∨ ¬C.aligned))
        (_ : ¬(if transB = CbTrans.noTrans then
                B.dim 0 ≠ (if transA = CbTrans.noTrans then A.dim 1 else A.dim 0)
              else
                B.dim 1 ≠ (if transA = CbTrans.noTrans then A.dim 1 else A.dim 0)))
        (_ : ¬(C.dim 0 ≠ (if transA = CbTrans.noTrans then A.dim 0 else A.dim 1) ∨
              C.dim 1 ≠ (if transB = CbTrans.noTrans then B.dim 1 else B.dim 0)))
        (_ : A.oneSegment = false)
        (_ : env.copyFn A CopyOrd.fOrder = Except.ok A2),
      "A" ∈ (GpuArray_rgemm env transA transB alpha A B beta C false).allocated ∧
      (∀ c, (GpuArray_rgemm env transA transB alpha A B beta C false).call =
          some c → c.aData = A2.data)) ∧
    (∀ env transA transB alpha (A B : GpuArray) beta C B2
        (_ : ¬(A.typecode ≠ Typecode.gaFloat ∧ A.typecode ≠ Typecode.gaDouble))
        (_ : ¬(A.nd ≠ 2 ∨ B.nd ≠ 2 ∨ C.nd ≠ 2 ∨ A.typecode ≠ A.typecode ∨
              B.typecode ≠ A.typecode ∨ C.typecode ≠ A.typecode))
        (_ : ¬(¬A.aligned ∨ ¬B.aligned ∨ ¬C.aligned))
        (_ : ¬(if transB = CbTrans.noTrans then
                B.dim 0 ≠ (if transA = CbTrans.noTrans then A.dim 1 else A.dim 0)
              else
                B.dim 1 ≠ (if transA = CbTrans.noTrans then A.dim 1 else A.dim 0)))
        (_ : ¬(C.dim 0 ≠ (if transA = CbTrans.noTrans then A.dim 0 else A.dim 1) ∨
              C.dim 1 ≠ (if transB = CbTrans.noTrans then B.dim 1 else B.dim 0)))
        (_ : A.oneSegment = true)
        (_ : B.oneSegment = false)
        (_ : env.copyFn B CopyOrd.fOrder = Except.ok B2),
      "B" ∈ (GpuArray_rgemm env transA transB alpha A B beta C false).allocated ∧
      (∀ c, (GpuArray_rgemm env transA transB alpha A B beta C false).call =
          some c → c.bData = B2.data)) ∧
    (∀ env alpha (X Y A : GpuArray) X2
        (_ : ¬(X.typecode ≠ Typecode.gaFloat ∧ X.typecode ≠ Typecode.gaDouble))
        (_ : ¬(X.nd ≠ 1 ∨ Y.nd ≠ 1 ∨ A.nd ≠ 2 ∨ X.typecode ≠ X.typecode ∨
              Y.typecode ≠ X.typecode ∨ A.typecode ≠ X.typecode))
        (_ : ¬(¬X.aligned ∨ ¬Y.aligned ∨ ¬A.aligned))
        (_ : ¬(A.dim 0 ≠ X.dim 0 ∨ A.dim 1 ≠ Y.dim 0))
        (_ : X.stride0 < 0)
        (_ : env.copyFn X CopyOrd.anyOrder = Except.ok X2),
      "X" ∈ (GpuArray_rger env alpha X Y A false).allocated ∧
      (∀ c, (GpuArray_rger env alpha X Y A false).call = some c →
        c.xData = X2.data)) ∧
    (∀ env alpha (X Y A : GpuArray)
        (_ : ¬(X.typecode ≠ Typecode.gaFloat ∧ X.typecode ≠ Typecode.gaDouble))
        (_ : ¬(X.nd ≠ 1 ∨ Y.nd ≠ 1 ∨ A.nd ≠ 2 ∨ X.typecode ≠ X.typecode ∨
              Y.typecode ≠ X.typecode ∨ A.typecode ≠ X.typecode))
        (_ : ¬(¬X.aligned ∨ ¬Y.aligned ∨ ¬A.aligned))
        (_ : ¬(A.dim 0 ≠ X.dim 0 ∨ A.dim 1 ≠ Y.dim 0))
        (_ : ¬(X.stride0 < 0))
        (_ : Y.stride0 < 0),
      GpuArray_rger env alpha X Y A true =
        ⟨GAErr.copyError, none, [], []⟩) ∧
    (∀ env alpha (X Y A : GpuArray) Y2
        (_ : ¬(X.typecode ≠ Typecode.gaFloat ∧ X.typecode ≠ Typecode.gaDouble))
        (_ : ¬(X.nd ≠ 1 ∨ Y.nd ≠ 1 ∨ A.nd ≠ 2 ∨ X.typecode ≠ X.typecode ∨
              Y.typecode ≠ X.typecode ∨ A.typecode ≠ X.typecode))
        (_ : ¬(¬X.aligned ∨ ¬Y.aligned ∨ ¬A.aligned))
        (_ : ¬(A.dim 0 ≠ X.dim 0 ∨ A.dim 1 ≠ Y.dim 0))
        (_ : ¬(X.stride0 < 0))
        (_ : Y.stride0 < 0)
        (_ : env.copyFn Y CopyOrd.anyOrder = Except.ok Y2),
      "Y" ∈ (GpuArray_rger env alpha X Y A false).allocated ∧
      (∀ c, (GpuArray_rger env alpha X Y A false).call = some c →
        c.yData = Y2.data)) := by
  refine ⟨?_, ?_, ?_, ?_, ?_, ?_, ?_, ?_, ?_, ⟨?_, ?_, ?_⟩, ?_, ?_, ?_,
    ?_, ?_, ?_, ?_⟩
  · intro env transA alpha A X beta Y h1 h2 h3 h4 h5
    unfold GpuArray_rgemv
    rw [if_neg h1, if_neg h2, if_neg h3, if_neg h4]
    simp [h5]
  · intro env transA alpha A X beta Y A2 h1 h2 h3 h4 h5 hc
    have hr : GpuArray_rgemv env transA alpha A X beta Y false =
        rgemvFromX env transA alpha A X beta Y false A2
          A.typecode.elsize ["A"] := by
      unfold GpuArray_rgemv
      rw [if_neg h1, if_neg h2, if_neg h3, if_neg h4]
      simp [h5, hc]
    refine ⟨hr, ?_, ?_⟩
    · rw [hr]
      rcases rgemvFromX_allocated env transA alpha A X beta Y false A2
          A.typecode.elsize ["A"] with h | h <;> simp [h]
    · intro c hcall
      exact rgemvFromX_call env transA alpha A X beta Y false A2
        A.typecode.elsize ["A"] c (hr ▸ hcall)
  · intro env transA alpha A X beta Y nocopy h1 h2 h3 h4 h5 h6 h7
    unfold GpuArray_rgemv rgemvFromX rgemvFinish
    rw [if_neg h1, if_neg h2, if_neg h3, if_neg h4]
    simp [h5, h6, h7]
  · intro env transA alpha A X beta Y h1 h2 h3 h4 h5 h6
    unfold GpuArray_rgemv rgemvFromX
    rw [if_neg h1, if_neg h2, if_neg h3, if_neg h4]
    simp [h5, h6]
  · intro env transA transB alpha A B beta C h1 h2 h3 h4 h5 h6
    unfold GpuArray_rgemm
    rw [if_neg h1, if_neg h2, if_neg h3, if_neg h4, if_neg h5]
    simp [h6]
  · intro env transA transB alpha A B beta C nocopy h1 h2 h3 h4 h5 h6 h7 h8
    unfold GpuArray_rgemm rgemmFromB rgemmFinish
    rw [if_neg h1, if_neg h2, if_neg h3, if_neg h4, if_neg h5]
    simp [h6, h7, h8]
  · intro env alpha X Y A h1 h2 h3 h4 h5
    unfold GpuArray_rger
    rw [if_neg h1, if_neg h2, if_neg h3, if_neg h4]
    simp [h5]
  · intro env alpha X Y A X2 h1 h2 h3 h4 h5 hc
    unfold GpuArray_rger
    rw [if_neg h1, if_neg h2, if_neg h3, if_neg h4]
    simp [h5, hc]
  · intro env alpha X Y A nocopy h1 h2 h3 h4 h5 h6 h7
    unfold GpuArray_rger rgerFromY rgerFinish
    rw [if_neg h1, if_neg h2, if_neg h3, if_neg h4]
    simp [h5, h6, h7]
  · intro env transA alpha A X beta Y nocopy
    rcases rgemv_allocated_cases env transA alpha A X beta Y nocopy with
      h | h | h | h <;> simp [h]
  · intro env transA transB alpha A B beta C nocopy
    rcases rgemm_allocated_cases env transA transB alpha A B beta C nocopy with
      h | h | h | h <;> simp [h]
  · intro env alpha X Y A nocopy
    rcases rger_allocated_cases env alpha X Y A nocopy with
      h | h | h | h <;> simp [h]
  · intro env transA alpha A X beta Y X2 h1 h2 h3 h4 h5 h6 hc
    have hr : GpuArray_rgemv env transA alpha A X beta Y false =
        rgemvFinish env transA alpha A beta Y A X2 A.typecode.elsize
          ["X"] := by
      unfold GpuArray_rgemv rgemvFromX
      rw [if_neg h1, if_neg h2, if_neg h3, if_neg h4]
      simp [h5, h6, hc]
    refine ⟨?_, ?_⟩
    · rw [hr, rgemvFinish_allocated]
      simp
    · intro c hcall
      exact rgemvFinish_call_x env transA alpha A beta Y A X2
        A.typecode.elsize ["X"] c (hr ▸ hcall)
  · intro env transA transB alpha A B beta C h1 h2 h3 h4 h5 h6 h7
    unfold GpuArray_rgemm rgemmFromB
    rw [if_neg h1, if_neg h2, if_neg h3, if_neg h4, if_neg h5]
    simp [h6, h7]
  · intro env transA transB alpha A B beta C A2 h1 h2 h3 h4 h5 h6 hc
    have hr : GpuArray_rgemm env transA transB alpha A B beta C false =
        rgemmFromB env transA transB alpha A B beta C false A2
          A.typecode.elsize ["A"] := by
      unfold GpuArray_rgemm
      rw [if_neg h1, if_neg h2, if_neg h3, if_neg h4, if_neg h5]
      simp [h6, hc]
    refine ⟨?_, ?_⟩
    · rw [hr]
      exact rgemmFromB_allocated_elim (fun l => "A" ∈ l) env transA transB
        alpha A B beta C false A2 A.typecode.elsize ["A"] (by simp) (by simp)
    · intro c hcall
      exact rgemmFromB_call_a env transA transB alpha A B beta C false A2
        A.typecode.elsize ["A"] c (hr ▸ hcall)
  · intro env transA transB alpha A B beta C B2 h1 h2 h3 h4 h5 h6 h7 hc
    have hr : GpuArray_rgemm env transA transB alpha A B beta C false =
        rgemmFinish env transA transB alpha A B beta C A B2
          A.typecode.elsize ["B"] := by
      unfold GpuArray_rgemm rgemmFromB
      rw [if_neg h1, if_neg h2, if_neg h3, if_neg h4, if_neg h5]
      simp [h6, h7, hc]
    refine ⟨?_, ?_⟩
    · rw [hr, rgemmFinish_allocated]
      simp
    · intro c hcall
      exact rgemmFinish_call_b env transA transB alpha A B beta C A B2
        A.typecode.elsize ["B"] c (hr ▸ hcall)
  · intro env alpha X Y A X2 h1 h2 h3 h4 h5 hc
    have hr : GpuArray_rger env alpha X Y A false =
        rgerFromY env alpha X Y A false X2 X.typecode.elsize ["X"] := by
      unfold GpuArray_rger
      rw [if_neg h1, if_neg h2, if_neg h3, if_neg h4]
      simp [h5, hc]
    refine ⟨?_, ?_⟩
    · rw [hr]
      exact rgerFromY_allocated_elim (fun l => "X" ∈ l) env alpha X Y A
        false X2 X.typecode.elsize ["X"] (by simp) (by simp)
    · intro c hcall
      exact rgerFromY_call_x env alpha X Y A false X2 X.typecode.elsize
        ["X"] c (hr ▸ hcall)
  · intro env alpha X Y A h1 h2 h3 h4 h5 h6
    unfold GpuArray_rger rgerFromY
    rw [if_neg h1, if_neg h2, if_neg h3, if_neg h4]
    simp [h5, h6]
  · intro env alpha X Y A Y2 h1 h2 h3 h4 h5 h6 hc
    have hr : GpuArray_rger env alpha X Y A false =
        rgerFinish env alpha X Y A X Y2 X.typecode.elsize ["Y"] := by
      unfold GpuArray_rger rgerFromY
      rw [if_neg h1, if_neg h2, if_neg h3, if_neg h4]
      simp [h5, h6, hc]
    refine ⟨?_, ?_⟩
    · rw [hr, rgerFinish_allocated]
      simp
    · intro c hcall
      exact rgerFinish_call_y env alpha X Y A X Y2 X.typecode.elsize
        ["Y"] c (hr ▸ hcall)

/-- `setup_order_gemm` succeeds exactly by fixing the order from `Cp`
and correcting each input matrix against that order. -/
theorem setup_order_gemm_ok (transA transB : CbTrans) (Ap Bp Cp : GpuArray)
    (o : CbOrder) (tA tB : CbTrans) (lda ldb ldc : Nat)
    (h : setup_order_gemm transA transB Ap Bp Cp =
      Except.ok (o, tA, tB, lda, ldb, ldc)) :
    o = (if Cp.fContig then CbOrder.cbFortran else CbOrder.cbC) ∧
    ldc = (if Cp.fContig then Cp.dim 0 else Cp.dim 1) ∧
    gemmOrderArg o Ap transA = Except.ok (tA, lda) ∧
    gemmOrderArg o Bp transB = Except.ok (tB, ldb) := by
  unfold setup_order_gemm at h
  by_cases hf : Cp.fContig
  · rw [if_pos hf] at h
    dsimp only at h
    rcases hA : gemmOrderArg CbOrder.cbFortran Ap transA with e | ta
    · rw [hA] at h; cases h
    · rw [hA] at h
      rcases hB : gemmOrderArg CbOrder.cbFortran Bp transB with e | tb
      · rw [hB] at h; cases h
      · rw [hB] at h
        obtain ⟨ta1, ta2⟩ := ta
        obtain ⟨tb1, tb2⟩ := tb
        cases h
        simp [hf, hA, hB]
  · by_cases hc : Cp.cContig
    · rw [if_neg hf, if_pos hc] at h
      dsimp only at h
      rcases hA : gemmOrderArg CbOrder.cbC Ap transA with e | ta
      · rw [hA] at h; cases h
      · rw [hA] at h
        rcases hB : gemmOrderArg CbOrder.cbC Bp transB with e | tb
        · rw [hB] at h; cases h
        · rw [hB] at h
          obtain ⟨ta1, ta2⟩ := ta
          obtain ⟨tb1, tb2⟩ := tb
          cases h
          simp [hf, hc, hA, hB]
    · rw [if_neg hf, if_neg hc] at h
      dsimp only at h
      cases h

/-- A `gemm` input matrix that is neither F- nor C-contiguous makes
`setup_order_gemm` fail with the layout error. -/
theorem setup_order_gemm_noncontig_a (transA transB : CbTrans)
    (Ap Bp Cp : GpuArray) (h1 : ¬Ap.fContig) (h2 : ¬Ap.cContig) :
    setup_order_gemm transA transB Ap Bp Cp =
      Except.error GAErr.valueError := by
  unfold setup_order_gemm gemmOrderArg
  by_cases hf : Cp.fContig <;> by_cases hc : Cp.cContig <;>
    simp [hf, hc, h1, h2]

/-- Same for the second input matrix. -/
theorem setup_order_gemm_noncontig_b (transA transB : CbTrans)
    (Ap Bp Cp : GpuArray) (h1 : ¬Bp.fContig) (h2 : ¬Bp.cContig) :
    setup_order_gemm transA transB Ap Bp Cp =
      Except.error GAErr.valueError := by
  unfold setup_order_gemm gemmOrderArg
  by_cases hf : Cp.fContig <;> by_cases hc : Cp.cContig <;>
    by_cases haf : Ap.fContig <;> by_cases hac : Ap.cContig <;>
    simp [hf, hc, haf, hac, h1, h2]

/-- The backend call built by the `gemm` tail carries the order fixed
by the output matrix `C`. -/
theorem rgemmFinish_call_o (env : Env) (transA transB : CbTrans)
    (alpha : Rat) (A B : GpuArray) (beta : Rat) (C Ap Bp : GpuArray)
    (els : Nat) (al : List String) (c : GemmCall) :
    (rgemmFinish env transA transB alpha A B beta C Ap Bp els al).call =
      some c →
    c.o = (if C.fContig then CbOrder.cbFortran else CbOrder.cbC) := by
  unfold rgemmFinish
  repeat' split
  all_goals intro h
  all_goals try (cases h)
  all_goals simp only [mkGemmCall]
  all_goals (have hsetup := (setup_order_gemm_ok _ _ _ _ _ _ _ _ _ _ _ (by assumption)).1; simp_all)

/-- Ditto from the `B` fallback on. -/
theorem rgemmFromB_call_o (env : Env) (transA transB : CbTrans)
    (alpha : Rat) (A B : GpuArray) (beta : Rat) (C : GpuArray) (nc : Bool)
    (Ap : GpuArray) (els : Nat) (al : List String) (c : GemmCall) :
    (rgemmFromB env transA transB alpha A B beta C nc Ap els al).call =
      some c →
    c.o = (if C.fContig then CbOrder.cbFortran else CbOrder.cbC) := by
  unfold rgemmFromB rgemmFinish
  repeat' split
  all_goals intro h
  all_goals try (cases h)
  all_goals simp only [mkGemmCall]
  all_goals (have hsetup := (setup_order_gemm_ok _ _ _ _ _ _ _ _ _ _ _ (by assumption)).1; simp_all)

/-- The backend call of a full `gemm` invocation carries the order
fixed by the output matrix `C`. -/
theorem rgemm_call_o (env : Env) (transA transB : CbTrans) (alpha : Rat)
    (A B : GpuArray) (beta : Rat) (C : GpuArray) (nocopy : Bool)
    (c : GemmCall) :
    (GpuArray_rgemm env transA transB alpha A B beta C nocopy).call =
      some c →
    c.o = (if C.fContig then CbOrder.cbFortran else CbOrder.cbC) := by
  unfold GpuArray_rgemm
  repeat' split
  all_goals intro h
  all_goals try (cases h)
  all_goals (have hco := rgemmFromB_call_o _ _ _ _ _ _ _ _ _ _ _ _ _ h; simp_all)

/-- C4: for the matrix-matrix product, the storage order passed to the
backend is fixed by the output matrix `C` — column-major if `C` is
Fortran-contiguous, else row-major if `C` is C-contiguous, else a
layout error; each of `A` and `B` whose own contiguous storage order
disagrees with that fixed order has its transpose flag inverted
(`flipTrans`) and its leading dimension taken from the opposite
dimension, while an agreeing matrix keeps its flag and native leading
dimension; a matrix that is neither fully row-major nor fully
column-major contiguous yields a layout error; and the backend always
receives the fixed order. -/
theorem c4_gemm_storage_order :
    (∀ transA transB (Ap Bp Cp : GpuArray),
      (¬Cp.fContig → ¬Cp.cContig →
        setup_order_gemm transA transB Ap Bp Cp =
          Except.error GAErr.valueError) ∧
      (¬Ap.fContig → ¬Ap.cContig →
        setup_order_gemm transA transB Ap Bp Cp =
          Except.error GAErr.valueError) ∧
      (¬Bp.fContig → ¬Bp.cContig →
        setup_order_gemm transA transB Ap Bp Cp =
          Except.error GAErr.valueError) ∧
      (∀ o tA tB lda ldb ldc,
        setup_order_gemm transA transB Ap Bp Cp =
          Except.ok (o, tA, tB, lda, ldb, ldc) →
        o = (if Cp.fContig then CbOrder.cbFortran else CbOrder.cbC) ∧
        ldc = (if Cp.fContig then Cp.dim 0 else Cp.dim 1) ∧
        (o = CbOrder.cbC → Ap.fContig →
          tA = flipTrans transA ∧ lda = Ap.dim 0) ∧
        (o = CbOrder.cbFortran → ¬Ap.fContig → Ap.cContig →
          tA = flipTrans transA ∧ lda = Ap.dim 1) ∧
        (o = CbOrder.cbC → ¬Ap.fContig → Ap.cContig →
          tA = transA ∧ lda = Ap.dim 1) ∧
        (o = CbOrder.cbFortran → Ap.fContig →
          tA = transA ∧ lda = Ap.dim 0) ∧
        (o = CbOrder.cbC → Bp.fContig →
          tB = flipTrans transB ∧ ldb = Bp.dim 0) ∧
        (o = CbOrder.cbFortran → ¬Bp.fContig → Bp.cContig →
          tB = flipTrans transB ∧ ldb = Bp.dim 1) ∧
        (o = CbOrder.cbC → ¬Bp.fContig → Bp.cContig →
          tB = transB ∧ ldb = Bp.dim 1) ∧
        (o = CbOrder.cbFortran → Bp.fContig →
          tB = transB ∧ ldb = Bp.dim 0))) ∧
    (∀ env transA transB alpha (A B : GpuArray) beta (C : GpuArray)
        nocopy c,
      (GpuArray_rgemm env transA transB alpha A B beta C nocopy).call =
        some c →
      c.o = (if C.fContig then CbOrder.cbFortran else CbOrder.cbC)) := by
  constructor
  · intro transA transB Ap Bp Cp
    refine ⟨?_, ?_, ?_, ?_⟩
    · intro h1 h2
      unfold setup_order_gemm
      rw [if_neg h1, if_neg h2]
    · intro h1 h2
      exact setup_order_gemm_noncontig_a transA transB Ap Bp Cp h1 h2
    · intro h1 h2
      exact setup_order_gemm_noncontig_b transA transB Ap Bp Cp h1 h2
    · intro o tA tB lda ldb ldc h
      obtain ⟨ho, hldc, hA, hB⟩ :=
        setup_order_gemm_ok transA transB Ap Bp Cp o tA tB lda ldb ldc h
      refine ⟨ho, hldc, ?_, ?_, ?_, ?_, ?_, ?_, ?_, ?_⟩
      · intro hoc hf
        subst hoc
        unfold gemmOrderArg at hA
        rw [if_pos hf] at hA
        simp at hA
        exact ⟨hA.1.symm, hA.2.symm⟩
      · intro hoc hnf hc
        subst hoc
        unfold gemmOrderArg at hA
        rw [if_neg hnf, if_pos hc] at hA
        simp at hA
        exact ⟨hA.1.symm, hA.2.symm⟩
      · intro hoc hnf hc
        subst hoc
        unfold gemmOrderArg at hA
        rw [if_neg hnf, if_pos hc] at hA
        simp at hA
        exact ⟨hA.1.symm, hA.2.symm⟩
      · intro hoc hf
        subst hoc
        unfold gemmOrderArg at hA
        rw [if_pos hf] at hA
        simp at hA
        exact ⟨hA.1.symm, hA.2.symm⟩
      · intro hoc hf
        subst hoc
        unfold gemmOrderArg at hB
        rw [if_pos hf] at hB
        simp at hB
        exact ⟨hB.1.symm, hB.2.symm⟩
      · intro hoc hnf hc
        subst hoc
        unfold gemmOrderArg at hB
        rw [if_neg hnf, if_pos hc] at hB
        simp at hB
        exact ⟨hB.1.symm, hB.2.symm⟩
      · intro hoc hnf hc
        subst hoc
        unfold gemmOrderArg at hB
        rw [if_neg hnf, if_pos hc] at hB
        simp at hB
        exact ⟨hB.1.symm, hB.2.symm⟩
      · intro hoc hf
        subst hoc
        unfold gemmOrderArg at hB
        rw [if_pos hf] at hB
        simp at hB
        exact ⟨hB.1.symm, hB.2.symm⟩
  · intro env transA transB alpha A B beta C nocopy c
    exact rgemm_call_o env transA transB alpha A B beta C nocopy c

theorem c4_gemm_storage_order_witness :
    CbOrder.cbC = (if mat22c.fContig then CbOrder.cbFortran else CbOrder.cbC) ∧
    (CbTrans.trans = flipTrans CbTrans.noTrans ∧ (2 : Nat) = mat22f.dim 0) ∧
    (CbTrans.noTrans = CbTrans.noTrans ∧ (2 : Nat) = mat22cB.dim 1) := by
  have h := (c4_gemm_storage_order.1 CbTrans.noTrans CbTrans.noTrans
      mat22f mat22cB mat22c).2.2.2 CbOrder.cbC CbTrans.trans CbTrans.noTrans
      2 2 2 rfl
  exact ⟨h.1, h.2.2.1 rfl rfl, h.2.2.2.2.2.2.2.2.1 rfl (by decide) rfl⟩


/-- `setup_order_gemv` fails only with the layout error. -/
theorem setup_order_gemv_err (Ap : GpuArray) (e : GAErr) :
    setup_order_gemv Ap = Except.error e → e = GAErr.valueError := by
  unfold setup_order_gemv
  split_ifs <;> intro h <;> cases h <;> rfl

/-- Under an oracle that never reports `GA_COPY_ERROR`, the `gemv` tail
never returns it either. -/
theorem rgemvFinish_no_copyerr (env : Env) (henv : EnvNoCopyErr env)
    (transA : CbTrans) (alpha : Rat) (A : GpuArray) (beta : Rat)
    (Y Ap Xp : GpuArray) (els : Nat) (al : List String) :
    (rgemvFinish env transA alpha A beta Y Ap Xp els al).err ≠
      GAErr.copyError := by
  unfold rgemvFinish
  repeat' split
  all_goals intro h
  all_goals first
    | (rename_i e heq; rw [setup_order_gemv_err _ _ heq] at h; cases h)
    | cases h
    | exact henv.2.1 h
    | exact henv.2.2.1 h
    | exact henv.2.2.2.1 h
    | exact henv.2.2.2.2.1 _ h

/-- Ditto from the `X` fallback on, with copying enabled. -/
theorem rgemvFromX_no_copyerr (env : Env) (henv : EnvNoCopyErr env)
    (transA : CbTrans) (alpha : Rat) (A X : GpuArray) (beta : Rat)
    (Y Ap : GpuArray) (els : Nat) (al : List String) :
    (rgemvFromX env transA alpha A X beta Y false Ap els al).err ≠
      GAErr.copyError := by
  unfold rgemvFromX
  repeat' split
  all_goals first
    | exact rgemvFinish_no_copyerr env henv _ _ _ _ _ _ _ _ _
    | (intro h; rename_i e heq; exact henv.1 _ _ _ heq h)
    | (intro h; exact absurd h (by decide))
    | (intro h; simp_all)
    | exact absurd (by assumption) Bool.false_ne_true
    | simp_all

/-- A `gemv` call with copying enabled never returns `GA_COPY_ERROR`
when the oracle cannot produce it. -/
theorem rgemv_no_copyerr (env : Env) (henv : EnvNoCopyErr env)
    (transA : CbTrans) (alpha : Rat) (A X : GpuArray) (beta : Rat)
    (Y : GpuArray) :
    (GpuArray_rgemv env transA alpha A X beta Y false).err ≠
      GAErr.copyError := by
  unfold GpuArray_rgemv
  repeat' split
  all_goals first
    | exact rgemvFromX_no_copyerr env henv _ _ _ _ _ _ _ _ _
    | (intro h; rename_i e heq; exact henv.1 _ _ _ heq h)
    | (intro h; exact absurd h (by decide))
    | (intro h; simp_all)
    | exact absurd (by assumption) Bool.false_ne_true
    | simp_all


/-- `gemmOrderArg` fails only with the layout error. -/
theorem gemmOrderArg_err (o : CbOrder) (Mp : GpuArray) (t : CbTrans)
    (e : GAErr) :
    gemmOrderArg o Mp t = Except.error e → e = GAErr.valueError := by
  unfold gemmOrderArg
  split_ifs <;> intro h <;> cases h <;> rfl

/-- `setup_order_gemm` fails only with the layout error. -/
theorem setup_order_gemm_err (transA transB : CbTrans) (Ap Bp Cp : GpuArray)
    (e : GAErr) :
    setup_order_gemm transA transB Ap Bp Cp = Except.error e →
      e = GAErr.valueError := by
  unfold setup_order_gemm
  intro h
  by_cases hf : Cp.fContig
  · rw [if_pos hf] at h
    dsimp only at h
    rcases hA : gemmOrderArg CbOrder.cbFortran Ap transA with e1 | ta
    · rw [hA] at h
      cases h
      exact gemmOrderArg_err _ _ _ _ hA
    · rw [hA] at h
      obtain ⟨ta1, ta2⟩ := ta
      rcases hB : gemmOrderArg CbOrder.cbFortran Bp transB with e2 | tb
      · rw [hB] at h
        cases h
        exact gemmOrderArg_err _ _ _ _ hB
      · obtain ⟨tb1, tb2⟩ := tb
        rw [hB] at h
        cases h
  · by_cases hc : Cp.cContig
    · rw [if_neg hf, if_pos hc] at h
      dsimp only at h
      rcases hA : gemmOrderArg CbOrder.cbC Ap transA with e1 | ta
      · rw [hA] at h
        cases h
        exact gemmOrderArg_err _ _ _ _ hA
      · rw [hA] at h
        obtain ⟨ta1, ta2⟩ := ta
        rcases hB : gemmOrderArg CbOrder.cbC Bp transB with e2 | tb
        · rw [hB] at h
          cases h
          exact gemmOrderArg_err _ _ _ _ hB
        · obtain ⟨tb1, tb2⟩ := tb
          rw [hB] at h
          cases h
    · rw [if_neg hf, if_neg hc] at h
      dsimp only at h
      cases h
      rfl

/-- Under an oracle that never reports `GA_COPY_ERROR`, the `gemm` tail
never returns it either. -/
theorem rgemmFinish_no_copyerr (env : Env) (henv : EnvNoCopyErr env)
    (transA transB : CbTrans) (alpha : Rat) (A B : GpuArray) (beta : Rat)
    (C Ap Bp : GpuArray) (els : Nat) (al : List String) :
    (rgemmFinish env transA transB alpha A B beta C Ap Bp els al).err ≠
      GAErr.copyError := by
  unfold rgemmFinish
  repeat' split
  all_goals intro h
  all_goals first
    | (rename_i e heq; rw [setup_order_gemm_err _ _ _ _ _ _ heq] at h; cases h)
    | cases h
    | exact henv.2.1 h
    | exact henv.2.2.1 h
    | exact henv.2.2.2.1 h
    | exact henv.2.2.2.2.2.1 _ h

/-- Ditto from the `B` fallback on, with copying enabled. -/
theorem rgemmFromB_no_copyerr (env : Env) (henv : EnvNoCopyErr env)
    (transA transB : CbTrans) (alpha : Rat) (A B : GpuArray) (beta : Rat)
    (C Ap : GpuArray) (els : Nat) (al : List String) :
    (rgemmFromB env transA transB alpha A B beta C false Ap els al).err ≠
      GAErr.copyError := by
  unfold rgemmFromB
  repeat' split
  all_goals first
    | exact rgemmFinish_no_copyerr env henv _ _ _ _ _ _ _ _ _ _ _
    | (intro h; rename_i e heq; exact henv.1 _ _ _ heq h)
    | (intro h; exact absurd h (by decide))
    | (intro h; simp_all)
    | simp_all

/-- A `gemm` call with copying enabled never returns `GA_COPY_ERROR`
when the oracle cannot produce it. -/
theorem rgemm_no_copyerr (env : Env) (henv : EnvNoCopyErr env)
    (transA transB : CbTrans) (alpha : Rat) (A B : GpuArray) (beta : Rat)
    (C : GpuArray) :
    (GpuArray_rgemm env transA transB alpha A B beta C false).err ≠
      GAErr.copyError := by
  unfold GpuArray_rgemm
  repeat' split
  all_goals first
    | exact rgemmFromB_no_copyerr env henv _ _ _ _ _ _ _ _ _ _
    | (intro h; rename_i e heq; exact henv.1 _ _ _ heq h)
    | (intro h; exact absurd h (by decide))
    | (intro h; simp_all)
    | simp_all

/-- `setup_order_ger` fails only with the layout error. -/
theorem setup_order_ger_err (Ap : GpuArray) (e : GAErr) :
    setup_order_ger Ap = Except.error e → e = GAErr.valueError := by
  unfold setup_order_ger
  split_ifs <;> intro h <;> cases h <;> rfl

/-- Under an oracle that never reports `GA_COPY_ERROR`, the `ger` tail
never returns it either. -/
theorem rgerFinish_no_copyerr (env : Env) (henv : EnvNoCopyErr env)
    (alpha : Rat) (X Y A Xp Yp : GpuArray) (els : Nat) (al : List String) :
    (rgerFinish env alpha X Y A Xp Yp els al).err ≠ GAErr.copyError := by
  unfold rgerFinish
  repeat' split
  all_goals intro h
  all_goals first
    | (rename_i e heq; rw [setup_order_ger_err _ _ heq] at h; cases h)
    | cases h
    | exact henv.2.1 h
    | exact henv.2.2.1 h
    | exact henv.2.2.2.1 h
    | exact henv.2.2.2.2.2.2 _ h

/-- Ditto from the `Y` fallback on, with copying enabled. -/
theorem rgerFromY_no_copyerr (env : Env) (henv : EnvNoCopyErr env)
    (alpha : Rat) (X Y A Xp : GpuArray) (els : Nat) (al : List String) :
    (rgerFromY env alpha X Y A false Xp els al).err ≠ GAErr.copyError := by
  unfold rgerFromY
  repeat' split
  all_goals first
    | exact rgerFinish_no_copyerr env henv _ _ _ _ _ _ _ _
    | (intro h; rename_i e heq; exact henv.1 _ _ _ heq h)
    | (intro h; exact absurd h (by decide))
    | (intro h; simp_all)
    | simp_all

/-- A `ger` call with copying enabled never returns `GA_COPY_ERROR`
when the oracle cannot produce it. -/
theorem rger_no_copyerr (env : Env) (henv : EnvNoCopyErr env)
    (alpha : Rat) (X Y A : GpuArray) :
    (GpuArray_rger env alpha X Y A false).err ≠ GAErr.copyError := by
  unfold GpuArray_rger
  repeat' split
  all_goals first
    | exact rgerFromY_no_copyerr env henv _ _ _ _ _ _ _
    | (intro h; rename_i e heq; exact henv.1 _ _ _ heq h)
    | (intro h; exact absurd h (by decide))
    | (intro h; simp_all)
    | simp_all


/-- C5: at the high-level binding, for the matrix-vector and
matrix-matrix products: when the output array is not supplied and beta
is not exactly zero the call raises the usage error (ValueError)
without allocating; when it is not supplied and beta is zero, a fresh
output is allocated via `pygpu_empty` with the inferred shape — `Y` of
length the rows of `A` after transpose, `C` of shape (rows of `A`
after transpose) x (cols of `B` after transpose) — and that fresh
array is the output handed to the validation pipeline. -/
theorem c5_output_inference :
    (∀ env alpha (A X : GpuArray) beta trans_a overwrite_y
        (_ : A.nd = 2) (_ : beta ≠ 0),
      blas_pyx_gemv env alpha A X beta none trans_a overwrite_y =
        ⟨Except.error PyExc.pyValueError, none, false, none, none⟩) ∧
    (∀ env alpha (A X : GpuArray) trans_a overwrite_y (_ : A.nd = 2),
      (blas_pyx_gemv env alpha A X 0 none trans_a overwrite_y).alloc =
          some (AllocKind.empty, [if trans_a then A.dim 1 else A.dim 0]) ∧
      (blas_pyx_gemv env alpha A X 0 none trans_a overwrite_y).pipeOut =
          some (env.alloc AllocKind.empty
            [if trans_a then A.dim 1 else A.dim 0] A.typecode)) ∧
    (∀ env alpha (A B : GpuArray) beta trans_a trans_b overwrite_c
        (_ : A.nd = 2) (_ : B.nd = 2) (_ : beta ≠ 0),
      blas_pyx_gemm env alpha A B beta none trans_a trans_b overwrite_c =
        ⟨Except.error PyExc.pyValueError, none, false, none, none⟩) ∧
    (∀ env alpha (A B : GpuArray) trans_a trans_b overwrite_c
        (_ : A.nd = 2) (_ : B.nd = 2),
      (blas_pyx_gemm env alpha A B 0 none trans_a trans_b
          overwrite_c).alloc =
          some (AllocKind.empty,
            [if trans_a then A.dim 1 else A.dim 0,
             if trans_b then B.dim 0 else B.dim 1]) ∧
      (blas_pyx_gemm env alpha A B 0 none trans_a trans_b
          overwrite_c).pipeOut =
          some (env.alloc AllocKind.empty
            [if trans_a then A.dim 1 else A.dim 0,
             if trans_b then B.dim 0 else B.dim 1] A.typecode)) := by
  refine ⟨?_, ?_, ?_, ?_⟩
  · intro env alpha A X beta trans_a overwrite_y h hb
    cases trans_a <;> simp [blas_pyx_gemv, h, hb]
  · intro env alpha A X trans_a overwrite_y h
    cases trans_a <;> simp [blas_pyx_gemv, gemv_pyx_tail, h]
  · intro env alpha A B beta trans_a trans_b overwrite_c ha hb hbeta
    cases trans_a <;> cases trans_b <;>
      simp [blas_pyx_gemm, ha, hb, hbeta]
  · intro env alpha A B trans_a trans_b overwrite_c ha hb
    cases trans_a <;> cases trans_b <;>
      simp [blas_pyx_gemm, gemm_pyx_tail, ha, hb]

/-- C5 witness: concrete instances — missing `Y` with nonzero beta
raises ValueError; missing `Y` with beta zero allocates a length-2
vector (rows of the 2-by-3 matrix `A`) which is passed on. -/
theorem c5_output_inference_witness :
    blas_pyx_gemv env0 1 matA23 (vecF 4 30) 1 none false false =
      ⟨Except.error PyExc.pyValueError, none, false, none, none⟩ ∧
    (blas_pyx_gemv env0 1 matA23 (vecF 3 31) 0 none false false).alloc =
      some (AllocKind.empty, [2]) ∧
    (blas_pyx_gemm env0 1 matA23 mat22c 0 none false false false).alloc =
      some (AllocKind.empty, [2, 2]) := by
  refine ⟨c5_output_inference.1 env0 1 matA23 (vecF 4 30) 1 false false
      rfl (by norm_num), ?_, ?_⟩
  · exact (c5_output_inference.2.1 env0 1 matA23 (vecF 3 31) false false
      rfl).1
  · exact (c5_output_inference.2.2.2 env0 1 matA23 mat22c false false
      false rfl rfl).1

/-- C6: at the high-level `ger` binding, a missing output matrix `A` is
allocated with `pygpu_zeros` — zero-filled — of shape
(length of `X`, length of `Y`), unconditionally (no scale-coefficient
condition); and whenever `A` is supplied, the validation pipeline
fails with the dimension error unless `A`'s shape equals
(length of `X`, length of `Y`), the earlier checks passing. -/
theorem c6_ger_output :
    (∀ env alpha (X Y : GpuArray) overwrite_a,
      (blas_pyx_ger env alpha X Y none overwrite_a).alloc =
        some (AllocKind.zeros, [X.dim 0, Y.dim 0]) ∧
      (blas_pyx_ger env alpha X Y none overwrite_a).pipeOut =
        some (env.alloc AllocKind.zeros [X.dim 0, Y.dim 0] X.typecode)) ∧
    (∀ env alpha (X Y A : GpuArray) nocopy
        (_ : ¬(X.typecode ≠ Typecode.gaFloat ∧
              X.typecode ≠ Typecode.gaDouble))
        (_ : ¬(X.nd ≠ 1 ∨ Y.nd ≠ 1 ∨ A.nd ≠ 2 ∨ X.typecode ≠ X.typecode ∨
              Y.typecode ≠ X.typecode ∨ A.typecode ≠ X.typecode))
        (_ : ¬(¬X.aligned ∨ ¬Y.aligned ∨ ¬A.aligned))
        (_ : A.dim 0 ≠ X.dim 0 ∨ A.dim 1 ≠ Y.dim 0),
      GpuArray_rger env alpha X Y A nocopy =
        ⟨GAErr.valueError, none, [], []⟩) := by
  constructor
  · intro env alpha X Y overwrite_a
    exact ⟨rfl, rfl⟩
  · intro env alpha X Y A nocopy h1 h2 h3 h4
    unfold GpuArray_rger
    rw [if_neg h1, if_neg h2, if_neg h3, if_pos h4]

/-- C6 witness: `X` of length 5 and `Y` of length 7 with `A` absent
request a zero-filled 5-by-7 allocation; a supplied `A` of shape
(5, 6) is rejected with the dimension error. -/
theorem c6_ger_output_witness :
    (blas_pyx_ger env0 1 (vecF 5 40) (vecF 7 41) none false).alloc =
      some (AllocKind.zeros, [5, 7]) ∧
    GpuArray_rger env0 1 (vecF 5 40) (vecF 7 41) mat56c true =
      ⟨GAErr.valueError, none, [], []⟩ := by
  refine ⟨(c6_ger_output.1 env0 1 (vecF 5 40) (vecF 7 41) false).1, ?_⟩
  exact c6_ger_output.2 env0 1 (vecF 5 40) (vecF 7 41) mat56c true
    (by decide) (by decide) (by decide) (by decide)

/-- The tail of each generated wrapper maps a pipeline status to the
Python outcome; if the status is not the copy error the outcome is not
the copy-error exception. -/
theorem pyres_tail_ne (e : GAErr) (y : GpuArray)
    (he : e ≠ GAErr.copyError) :
    (if e ≠ GAErr.noError then Except.error (PyExc.gpuArrayExc e)
     else Except.ok y) ≠
      Except.error (PyExc.gpuArrayExc GAErr.copyError) := by
  split
  · intro h
    simp at h
    exact he h
  · intro h
    cases h

/-- C10: the generated high-level bindings always invoke the simplified
surface with the `nocopy` flag equal to 0 (the literal in
`pygpu_blas_r<op>(..., 0)`), so the high level offers no way to
disable the contiguity fallback copy, and — as long as the external
runtime itself never produces `GA_COPY_ERROR` — no copy-error can ever
be reported through the high-level surface. -/
theorem c10_highlevel_nocopy :
    (∀ env alpha (A X : GpuArray) beta Yopt trans_a overwrite_y,
      (blas_pyx_gemv env alpha A X beta Yopt trans_a
          overwrite_y).pipeNocopy ≠ some true) ∧
    (∀ env alpha (A B : GpuArray) beta Copt trans_a trans_b overwrite_c,
      (blas_pyx_gemm env alpha A B beta Copt trans_a trans_b
          overwrite_c).pipeNocopy ≠ some true) ∧
    (∀ env alpha (X Y : GpuArray) Aopt overwrite_a,
      (blas_pyx_ger env alpha X Y Aopt overwrite_a).pipeNocopy ≠
        some true) ∧
    (∀ env, EnvNoCopyErr env →
      (∀ alpha (A X : GpuArray) beta Yopt trans_a overwrite_y,
        (blas_pyx_gemv env alpha A X beta Yopt trans_a
            overwrite_y).outcome ≠
          Except.error (PyExc.gpuArrayExc GAErr.copyError)) ∧
      (∀ alpha (A B : GpuArray) beta Copt trans_a trans_b overwrite_c,
        (blas_pyx_gemm env alpha A B beta Copt trans_a trans_b
            overwrite_c).outcome ≠
          Except.error (PyExc.gpuArrayExc GAErr.copyError)) ∧
      (∀ alpha (X Y : GpuArray) Aopt overwrite_a,
        (blas_pyx_ger env alpha X Y Aopt overwrite_a).outcome ≠
          Except.error (PyExc.gpuArrayExc GAErr.copyError))) := by
  refine ⟨?_, ?_, ?_, ?_⟩
  · intro env alpha A X beta Yopt trans_a overwrite_y
    unfold blas_pyx_gemv gemv_pyx_tail
    repeat' split
    all_goals intro h
    all_goals cases h
  · intro env alpha A B beta Copt trans_a trans_b overwrite_c
    unfold blas_pyx_gemm gemm_pyx_tail
    repeat' split
    all_goals intro h
    all_goals cases h
  · intro env alpha X Y Aopt overwrite_a
    unfold blas_pyx_ger ger_pyx_tail
    repeat' split
    all_goals intro h
    all_goals cases h
  · intro env henv
    refine ⟨?_, ?_, ?_⟩
    · intro alpha A X beta Yopt trans_a overwrite_y
      unfold blas_pyx_gemv gemv_pyx_tail
      repeat' split
      all_goals first
        | (exact pyres_tail_ne _ _ (rgemv_no_copyerr env henv _ _ _ _ _ _))
        | (intro h; cases h)
        | (intro h; simp at h)
    · intro alpha A B beta Copt trans_a trans_b overwrite_c
      unfold blas_pyx_gemm gemm_pyx_tail
      repeat' split
      all_goals first
        | (exact pyres_tail_ne _ _ (rgemm_no_copyerr env henv _ _ _ _ _ _ _))
        | (intro h; cases h)
        | (intro h; simp at h)
    · intro alpha X Y Aopt overwrite_a
      unfold blas_pyx_ger ger_pyx_tail
      repeat' split
      all_goals first
        | (exact pyres_tail_ne _ _ (rger_no_copyerr env henv _ _ _ _))
        | (intro h; cases h)
        | (intro h; simp at h)

/-- The concrete oracle `env0` never produces `GA_COPY_ERROR`. -/
theorem env0_no_copyerr : EnvNoCopyErr env0 := by
  refine ⟨?_, by decide, by decide, by decide, ?_, ?_, ?_⟩
  · intro a o e h
    simp [env0] at h
  · intro c
    simp [env0]
  · intro c
    simp [env0]
  · intro c
    simp [env0]

/-- C10 witness: a concrete high-level call records `nocopy = false`
toward the pipeline and cannot surface a copy-error under `env0`. -/
theorem c10_highlevel_nocopy_witness :
    (blas_pyx_gemv env0 1 matA23 (vecF 3 33) 0 none false
        false).pipeNocopy ≠ some true ∧
    (blas_pyx_gemv env0 1 matA23gap (vecF 3 33) 0 none false
        false).outcome ≠
      Except.error (PyExc.gpuArrayExc GAErr.copyError) := by
  refine ⟨c10_highlevel_nocopy.1 env0 1 matA23 (vecF 3 33) 0 none false
      false, ?_⟩
  exact (c10_highlevel_nocopy.2.2.2 env0 env0_no_copyerr).1 1 matA23gap
    (vecF 3 33) 0 none false false


set_option maxRecDepth 16384 in
/-- C7 counterexample: the declared symbols of the rendered
simplified-surface header are `GpuArray_rgemv`, `GpuArray_rgemm`,
`GpuArray_rger` — a `GpuArray_r` prefix on the operation name — and
not the bare operation names the claim states. -/
theorem c7_counterexample :
    blasHeaderDeclSymsC (renderBlas OPS).data ≠
      OPS.map (fun op => op.name.data) ∧
    blasHeaderDeclSymsC (renderBlas OPS).data =
      ["GpuArray_rgemv".data, "GpuArray_rgemm".data, "GpuArray_rger".data] := by
  constructor
  · decide
  · decide

set_option maxRecDepth 16384 in
/-- C7 (amended): per-type backend symbols are the type letter followed
by the operation name (both in the backend dispatch table and in the
dispatch-table header, which also carries the fixed batch entries); the
simplified surface declares `GpuArray_r<name>` once per operation with
per-type alias macros `GpuArray_<letter><name>`; the Cython api wrapper
is `pygpu_blas_r<name>`; only the high-level python function bears the
bare operation name. -/
theorem c7_surface_naming :
    genericTableSymsC (renderGeneric OPS).data =
      OPS.flatMap (fun op => op.types.map (fun t => (t.c ++ op.name).data)) ∧
    bufferTableSymsC (renderBufferBlas OPS).data =
      "setup".data ::
        OPS.flatMap (fun op => op.types.map (fun t => (t.c ++ op.name).data)) ++
          ["sgemmBatch".data, "dgemmBatch".data] ∧
    blasHeaderDeclSymsC (renderBlas OPS).data =
      OPS.map (fun op => ("GpuArray_r" ++ op.name).data) ∧
    blasHeaderAliasesC (renderBlas OPS).data =
      OPS.flatMap (fun op => op.types.map (fun t =>
        ["#define".data, ("GpuArray_" ++ t.c ++ op.name).data,
         ("GpuArray_r" ++ op.name).data])) ∧
    pyxWrapperNamesC (renderBlasPyx OPS).data =
      OPS.map (fun op => ("pygpu_blas_r" ++ op.name).data) ∧
    pyxDefNamesC (renderBlasPyx OPS).data =
      OPS.map (fun op => op.name.data) := by
  refine ⟨by decide, by decide, by decide, by decide, by decide, by decide⟩

set_option maxRecDepth 8192 in
/-- The argument-fidelity facts of C8, instantiated at `gemvOp`. -/
theorem c8_args_gemv :
    paramNamesC (nativeDeclParamsC gemvOp) = expectedParamNames gemvOp ∧
    (∀ t ∈ gemvOp.types,
      paramNamesC (tableEntryParamsC gemvOp t) = expectedParamNames gemvOp) ∧
    isPreC "ORDER ".data (callStrC gemvOp) = gemvOp.has_order ∧
    callNamesC (callStrC gemvOp) = gemvOp.arguments.map (fun a => a.name.data) ∧
    countOccurC ("GPUARRAY_PUBLIC int GpuArray_r" ++ gemvOp.name ++ "(").data
      (renderBlas OPS).data = 1 ∧
    gemvOp.simple_args = gemvOp.arguments.filter
      (fun a => !(a.cls = ArgClass.sizeA || a.cls = ArgClass.incA)) ∧
    containsC ("if (" ++ gemvOp.firsta ++
        "p->typecode == GA_FLOAT)\n    err = blas->s" ++ gemvOp.name ++
        "(o, ").data (arrayBlasOpBlock gemvOp).data = true ∧
    containsC ("else\n    err = blas->d" ++ gemvOp.name ++ "(o, ").data
      (arrayBlasOpBlock gemvOp).data = true := by
  refine ⟨by decide, by decide, by decide, by decide, by decide, by decide,
    by decide, by decide⟩
set_option maxRecDepth 8192 in
/-- The argument-fidelity facts of C8, instantiated at `gemmOp`. -/
theorem c8_args_gemm :
    paramNamesC (nativeDeclParamsC gemmOp) = expectedParamNames gemmOp ∧
    (∀ t ∈ gemmOp.types,
      paramNamesC (tableEntryParamsC gemmOp t) = expectedParamNames gemmOp) ∧
    isPreC "ORDER ".data (callStrC gemmOp) = gemmOp.has_order ∧
    callNamesC (callStrC gemmOp) = gemmOp.arguments.map (fun a => a.name.data) ∧
    countOccurC ("GPUARRAY_PUBLIC int GpuArray_r" ++ gemmOp.name ++ "(").data
      (renderBlas OPS).data = 1 ∧
    gemmOp.simple_args = gemmOp.arguments.filter
      (fun a => !(a.cls = ArgClass.sizeA || a.cls = ArgClass.incA)) ∧
    containsC ("if (" ++ gemmOp.firsta ++
        "p->typecode == GA_FLOAT)\n    err = blas->s" ++ gemmOp.name ++
        "(o, ").data (arrayBlasOpBlock gemmOp).data = true ∧
    containsC ("else\n    err = blas->d" ++ gemmOp.name ++ "(o, ").data
      (arrayBlasOpBlock gemmOp).data = true := by
  refine ⟨by decide, by decide, by decide, by decide, by decide, by decide,
    by decide, by decide⟩
set_option maxRecDepth 8192 in
/-- The argument-fidelity facts of C8, instantiated at `gerOp`. -/
theorem c8_args_ger :
    paramNamesC (nativeDeclParamsC gerOp) = expectedParamNames gerOp ∧
    (∀ t ∈ gerOp.types,
      paramNamesC (tableEntryParamsC gerOp t) = expectedParamNames gerOp) ∧
    isPreC "ORDER ".data (callStrC gerOp) = gerOp.has_order ∧
    callNamesC (callStrC gerOp) = gerOp.arguments.map (fun a => a.name.data) ∧
    countOccurC ("GPUARRAY_PUBLIC int GpuArray_r" ++ gerOp.name ++ "(").data
      (renderBlas OPS).data = 1 ∧
    gerOp.simple_args = gerOp.arguments.filter
      (fun a => !(a.cls = ArgClass.sizeA || a.cls = ArgClass.incA)) ∧
    containsC ("if (" ++ gerOp.firsta ++
        "p->typecode == GA_FLOAT)\n    err = blas->s" ++ gerOp.name ++
        "(o, ").data (arrayBlasOpBlock gerOp).data = true ∧
    containsC ("else\n    err = blas->d" ++ gerOp.name ++ "(o, ").data
      (arrayBlasOpBlock gerOp).data = true := by
  refine ⟨by decide, by decide, by decide, by decide, by decide, by decide,
    by decide, by decide⟩

/-- C8: for every op, the native declaration and every dispatch-table
entry declare exactly the descriptor＇s arguments in order (arrays as a
data pointer plus an offset) with `order` prepended exactly when the op
involves a matrix; the forwarding call enumerates the same argument
names in the same order behind the same `ORDER` prefix; the simplified
public declaration occurs once per op, its argument list keeps exactly
the non-size, non-increment arguments, and the per-op implementation
block branches at runtime on the element-type tag between the `s` and
`d` table entries. -/
theorem c8_argument_fidelity :
    ∀ op ∈ OPS,
      paramNamesC (nativeDeclParamsC op) = expectedParamNames op ∧
      (∀ t ∈ op.types,
        paramNamesC (tableEntryParamsC op t) = expectedParamNames op) ∧
      isPreC "ORDER ".data (callStrC op) = op.has_order ∧
      callNamesC (callStrC op) = op.arguments.map (fun a => a.name.data) ∧
      countOccurC ("GPUARRAY_PUBLIC int GpuArray_r" ++ op.name ++ "(").data
        (renderBlas OPS).data = 1 ∧
      op.simple_args = op.arguments.filter
        (fun a => !(a.cls = ArgClass.sizeA || a.cls = ArgClass.incA)) ∧
      containsC ("if (" ++ op.firsta ++
            "p->typecode == GA_FLOAT)\n    err = blas->s" ++ op.name ++
            "(o, ").data (arrayBlasOpBlock op).data = true ∧
      containsC ("else\n    err = blas->d" ++ op.name ++ "(o, ").data
        (arrayBlasOpBlock op).data = true := by
  intro op hop
  simp only [OPS, List.mem_cons, List.not_mem_nil, or_false] at hop
  rcases hop with h | h | h <;> subst h
  · exact c8_args_gemv
  · exact c8_args_gemm
  · exact c8_args_ger


set_option maxRecDepth 16384 in
/-- C8 witness: the gemv native declaration enumerates exactly the
descriptor＇s argument names, with `order` first. -/
theorem c8_argument_fidelity_witness :
    paramNamesC (nativeDeclParamsC gemvOp) = expectedParamNames gemvOp :=
  (c8_argument_fidelity gemvOp (by decide)).1

/-- C9: the emitter is deterministic and idempotent — a second run
changes nothing, and each of the five artifact paths holds exactly the
text rendered from `OPS`, independent of the prior file-system
state. -/
theorem c9_emitter_deterministic :
    (∀ fs : FSMap, runGen (runGen fs) = runGen fs) ∧
    (∀ fs : FSMap,
      runGen fs "src/generic_blas.inc.c" = some (renderGeneric OPS) ∧
      runGen fs "src/gpuarray/buffer_blas.h" = some (renderBufferBlas OPS) ∧
      runGen fs "src/gpuarray/blas.h" = some (renderBlas OPS) ∧
      runGen fs "src/gpuarray_array_blas.c" = some (renderArrayBlas OPS) ∧
      runGen fs "pygpu/blas.pyx" = some (renderBlasPyx OPS)) := by
  constructor
  · intro fs
    funext q
    simp only [runGen, fsWrite]
    split_ifs <;> rfl
  · intro fs
    exact ⟨rfl, rfl, rfl, rfl, rfl⟩

/-- C3 witness: the non-contiguous 2-by-3 matrix with matching
dimensions is rejected with the copy error, allocating nothing, when
`nocopy` is set. -/
theorem c3_contiguity_fallback_witness :
    GpuArray_rgemv env0 CbTrans.noTrans 1 matA23gap (vecF 3 50) 0
        (vecF 2 51) true =
      ⟨GAErr.copyError, none, [], []⟩ :=
  c3_contiguity_fallback.1 env0 CbTrans.noTrans 1 matA23gap (vecF 3 50) 0
    (vecF 2 51) (by decide) (by decide) (by decide) (by decide) (by decide)

end GB
